import Mathlib

/-!
# linux-dedupe: the FIDEDUPERANGE binding

A shallow embedding of `src/cxx/linux-dedupe.cpp`: the argument validator and
buffer builder `to_dedup_range`, the blocking entry point
`IoctlDedupeRangeSync`, the queued entry point `IoctlDedupeRangeAsync` and its
worker `IoctlAsyncDedupRangeWorker`.

* JavaScript numbers are IEEE-754 binary64 values. Only exact operations are
  used by the source (`floor`, `<`, `!=`, conversion to and from integers), so
  a finite double is kept as an integer mantissa and a binary exponent.
* Machine integers are `Int`/`Nat` with explicit wrap-around.
* The request buffer is the `std::vector<uint8_t>` of the source: a list of
  bytes, with the kernel structures overlaid at their ABI offsets.
* Exceptions scheduled with `Nan::Throw...` do not unwind the C++ frame; an
  entry point therefore yields the list of exceptions it scheduled, next to
  the system calls it issued and the workers it queued.
* The kernel is a parameter: a function from the system call issued to the
  return value, the `errno` and the buffer contents it leaves behind.
* `DEBUG_ENABLED` is `false` in the source, so the `printf` calls are left out,
  as is the unused local vector of line 152.
-/

namespace LinuxDedupe

/-! ## IEEE-754 binary64 numbers -/

/-- A finite binary64 value `mant * 2 ^ exp`: a 53-bit signed mantissa and an
exponent in the binary64 range (subnormals included). -/
structure Finite where
  mant : Int
  exp : Int
  mant_lt : mant.natAbs < 2 ^ 53
  exp_ge : -1074 ≤ exp
  exp_le : exp ≤ 971
  deriving DecidableEq

/-- A JavaScript number (a C++ `double`). -/
inductive JSNumber where
  | finite (d : Finite)
  | nan
  | posInf
  | negInf
  deriving DecidableEq

namespace Finite

/-- Numerator of the value over the denominator `den`. -/
def num (d : Finite) : Int := d.mant * 2 ^ d.exp.toNat

/-- Denominator (a power of two) of the value `num / den`. -/
def den (d : Finite) : Int := 2 ^ (-d.exp).toNat

/-- The value as a rational number. -/
def toRat (d : Finite) : ℚ := (d.num : ℚ) / (d.den : ℚ)

/-- The value has no fractional part. -/
def isInt (d : Finite) : Bool := d.num % d.den == 0

/-- Largest integer not above the value. -/
def floorInt (d : Finite) : Int := d.num / d.den

/-- The value rounded toward zero (C++ floating-to-integer conversion). -/
def truncInt (d : Finite) : Int := Int.tdiv d.num d.den

/-- C `floor` on a finite double: the result is again a double. -/
def floor (d : Finite) : Finite :=
  if 0 ≤ d.exp then d
  else
    { mant := d.mant / 2 ^ (-d.exp).toNat
      exp := 0
      mant_lt := Nat.lt_of_le_of_lt (Int.natAbs_div_le_natAbs _ _) d.mant_lt
      exp_ge := by decide
      exp_le := by decide }

/-- The two mantissas brought to the smaller of the two exponents. -/
def scaled (a b : Finite) : Int × Int :=
  (a.mant * 2 ^ (a.exp - min a.exp b.exp).toNat, b.mant * 2 ^ (b.exp - min a.exp b.exp).toNat)

/-- Comparison `a < b` of two finite doubles. -/
def lt (a b : Finite) : Bool := decide ((scaled a b).1 < (scaled a b).2)

/-- Comparison `a == b` of two finite doubles (by value: `-0.0 == 0.0`). -/
def eq (a b : Finite) : Bool := (scaled a b).1 == (scaled a b).2

end Finite

/-- Wrap an integer into the range of a C `int` (two's complement, 32 bits). -/
def wrapInt32 (v : Int) : Int := (v + 2 ^ 31) % 2 ^ 32 - 2 ^ 31

/-- Wrap an integer into the range of `int64_t`. -/
def wrapInt64 (v : Int) : Int := (v + 2 ^ 63) % 2 ^ 64 - 2 ^ 63

/-- Number of low bits of `n` that do not fit a 53-bit mantissa (`fuel` bounds
the search; 11 suffices below `2 ^ 64`). -/
def excessBits : Nat → Nat → Nat
  | 0, _ => 0
  | fuel + 1, n => if n < 2 ^ 53 then 0 else excessBits fuel (n / 2) + 1

theorem excessBits_le (fuel n : Nat) : excessBits fuel n ≤ fuel := by
  induction fuel generalizing n with
  | zero => simp [excessBits]
  | succ k ih =>
    simp only [excessBits]
    split_ifs
    · omega
    · have := ih (n / 2)
      omega

/-- Mantissa and exponent of the double nearest to `n` (ties to even): the
low `s` bits that do not fit are rounded away, and a mantissa that rounds up to
`2 ^ 53` is renormalised. -/
def roundUInt64 (n : Nat) : Nat × Nat :=
  let s := excessBits 11 n
  let q := n / 2 ^ s
  let r := n % 2 ^ s
  let up := decide (2 ^ s < 2 * r) || (2 * r == 2 ^ s && q % 2 == 1)
  let m := if up then q + 1 else q
  if m < 2 ^ 53 then (m, s) else (2 ^ 52, s + 1)

theorem roundUInt64_bounds (n : Nat) :
    (roundUInt64 n).1 < 2 ^ 53 ∧ (roundUInt64 n).2 ≤ 12 := by
  have hs := excessBits_le 11 n
  unfold roundUInt64
  dsimp only
  split_ifs <;> dsimp only <;> refine ⟨?_, ?_⟩ <;> first | assumption | omega

namespace JSNumber

/-- C `floor`: `floor(NaN)` is NaN and an infinity is its own floor. -/
def floor : JSNumber → JSNumber
  | finite d => finite d.floor
  | nan => nan
  | posInf => posInf
  | negInf => negInf

/-- C++ `a < b` on doubles: false as soon as one side is NaN. -/
def lt : JSNumber → JSNumber → Bool
  | finite a, finite b => a.lt b
  | finite _, posInf => true
  | negInf, finite _ => true
  | negInf, posInf => true
  | _, _ => false

/-- C++ `a != b` on doubles: true as soon as one side is NaN. -/
def ne : JSNumber → JSNumber → Bool
  | finite a, finite b => !a.eq b
  | posInf, posInf => false
  | negInf, negInf => false
  | _, _ => true

/-- Conversion `int` to `double` (exact). -/
def ofInt32 (v : Int) : JSNumber :=
  finite
    { mant := wrapInt32 v
      exp := 0
      mant_lt := by unfold wrapInt32; omega
      exp_ge := by decide
      exp_le := by decide }

/-- Conversion `uint64_t` to `double`: round to nearest, ties to even. Exact up
to `2 ^ 53`. -/
def ofUInt64 (v : Nat) : JSNumber :=
  finite
    { mant := ((roundUInt64 (v % 2 ^ 64)).1 : Int)
      exp := ((roundUInt64 (v % 2 ^ 64)).2 : Int)
      mant_lt := by
        have := (roundUInt64_bounds (v % 2 ^ 64)).1
        simpa using this
      exp_ge := by omega
      exp_le := by
        have := (roundUInt64_bounds (v % 2 ^ 64)).2
        omega }

/-- The integer a number denotes, when it is finite and has no fractional part. -/
def toInt? : JSNumber → Option Int
  | finite d => if d.isInt then some d.floorInt else none
  | _ => none

end JSNumber

/-! ## Platform -/

/-- What the C++ standard leaves to the platform: byte order, the encoding of
the `FIDEDUPERANGE` request code from `<linux/fs.h>`, and the result of a
floating-to-integer conversion whose value does not fit the target type (for
which the standard defines no result). -/
structure Platform where
  bigEndian : Bool
  FIDEDUPERANGE : Nat
  castInt64 : JSNumber → Int
  castUInt64 : JSNumber → Nat

namespace Platform

/-- C++ `(int64_t) x` for a double `x`: truncation toward zero when the result
fits, the platform's value otherwise. -/
def toInt64 (p : Platform) : JSNumber → Int
  | .finite d =>
    if -2 ^ 63 ≤ d.truncInt ∧ d.truncInt < 2 ^ 63 then d.truncInt
    else wrapInt64 (p.castInt64 (.finite d))
  | x => wrapInt64 (p.castInt64 x)

/-- C++ `(uint64_t) x` for a double `x`: truncation toward zero when the result
fits, the platform's value otherwise. -/
def toUInt64 (p : Platform) : JSNumber → Nat
  | .finite d =>
    if 0 ≤ d.truncInt ∧ d.truncInt < 2 ^ 64 then d.truncInt.toNat
    else p.castUInt64 (.finite d) % 2 ^ 64
  | x => p.castUInt64 x % 2 ^ 64

end Platform

/-! ## JavaScript values -/

/-- The exception objects the binding creates. -/
inductive JSError where
  /-- Result of `Nan::ThrowTypeError(message)`. -/
  | typeError (message : String)
  /-- Result of `Nan::ErrnoException(errorno, syscall, nullptr, nullptr)`. -/
  | errnoException (errorno : Int) (syscall : String)
  deriving DecidableEq

/-- A JavaScript value as the binding can tell them apart. -/
inductive JSValue where
  | undefined
  | null
  | boolean (b : Bool)
  | number (x : JSNumber)
  | string (s : String)
  | function (id : Nat)
  | object (id : Nat)
  | error (e : JSError)
  deriving DecidableEq

namespace JSValue

/-- `v->IsNullOrUndefined()`. -/
def IsNullOrUndefined : JSValue → Bool
  | undefined => true
  | null => true
  | _ => false

/-- `v->IsNumber()`. -/
def IsNumber : JSValue → Bool
  | number _ => true
  | _ => false

/-- `v->IsFunction()`. -/
def IsFunction : JSValue → Bool
  | function _ => true
  | _ => false

/-- `Nan::To<double>(v).ToChecked()`. The source applies it only after
`IsNumber` has held, where it is the number itself; the other values are given
NaN here and are never reached. -/
def toDouble : JSValue → JSNumber
  | number x => x
  | _ => JSNumber.nan

end JSValue

/-- `info[i]` of a `Nan::FunctionCallbackInfo`: the i-th argument, `undefined`
past the end. -/
def argAt (info : List JSValue) (i : Nat) : JSValue := info.getD i JSValue.undefined

/-! ## The request buffer -/

/-- The bytes of `v` in `w` bytes, least significant first. -/
def bytesLE : Nat → Nat → List Nat
  | 0, _ => []
  | w + 1, v => v % 256 :: bytesLE w (v / 256)

/-- The value of a run of bytes, least significant first. -/
def valueLE : List Nat → Nat
  | [] => 0
  | b :: bs => b % 256 + 256 * valueLE bs

/-- Object representation of the unsigned integer `v` in `w` bytes. -/
def Platform.encode (p : Platform) (w v : Nat) : List Nat :=
  if p.bigEndian then (bytesLE w v).reverse else bytesLE w v

/-- The unsigned integer a run of bytes represents. -/
def Platform.decode (p : Platform) (bs : List Nat) : Nat :=
  if p.bigEndian then valueLE bs.reverse else valueLE bs

/-- Overwrite the bytes of `data` from offset `off` on with `bs`. -/
def store (data : List Nat) (off : Nat) (bs : List Nat) : List Nat :=
  data.take off ++ bs ++ data.drop (off + bs.length)

/-- The `w` bytes of `data` from offset `off` on. -/
def load (data : List Nat) (off w : Nat) : List Nat := (data.drop off).take w

/-- `sizeof(struct file_dedupe_range)` of `<linux/fs.h>`: `__u64 src_offset`,
`__u64 src_length`, `__u16 dest_count`, `__u16 reserved1`, `__u32 reserved2`,
then the flexible array `info[0]`. -/
def sizeof_file_dedupe_range : Nat := 24

/-- `sizeof(struct file_dedupe_range_info)` of `<linux/fs.h>`: `__s64 dest_fd`,
`__u64 dest_offset`, `__u64 bytes_deduped`, `__s32 status`, `__u32 reserved`. -/
def sizeof_file_dedupe_range_info : Nat := 32

/-- Fields of `struct file_dedupe_range`, read through a pointer to the start
of the buffer. -/
structure file_dedupe_range where
  src_offset : Nat
  src_length : Nat
  dest_count : Nat
  reserved1 : Nat
  reserved2 : Nat
  deriving DecidableEq

/-- Fields of `struct file_dedupe_range_info`, read through a pointer to the
bytes after the header. -/
structure file_dedupe_range_info where
  dest_fd : Int
  dest_offset : Nat
  bytes_deduped : Nat
  status : Int
  reserved : Nat
  deriving DecidableEq

/-- The value returned by `to_dedup_range`. The five request fields are not
initialised by the C++ constructor (they are indeterminate until assigned);
they start at 0 here. `data` starts as a zero-filled vector of the size of
the two kernel structures. -/
structure to_dedup_range_result where
  success : Bool := false
  srcFd : Int := 0
  srcOffset : Nat := 0
  srcLength : Nat := 0
  destFd : Int := 0
  destOffset : Nat := 0
  data : List Nat := List.replicate (sizeof_file_dedupe_range + sizeof_file_dedupe_range_info) 0
  deriving DecidableEq

namespace to_dedup_range_result

/-- `*dedupe_range()`: the header overlaid on the start of `data`. -/
def dedupe_range (p : Platform) (r : to_dedup_range_result) : file_dedupe_range :=
  { src_offset := p.decode (load r.data 0 8)
    src_length := p.decode (load r.data 8 8)
    dest_count := p.decode (load r.data 16 2)
    reserved1 := p.decode (load r.data 18 2)
    reserved2 := p.decode (load r.data 20 4) }

/-- `*dedupe_range_info()`: the record overlaid on `data` right after the
header. -/
def dedupe_range_info (p : Platform) (r : to_dedup_range_result) : file_dedupe_range_info :=
  { dest_fd := wrapInt64 (p.decode (load r.data (sizeof_file_dedupe_range + 0) 8))
    dest_offset := p.decode (load r.data (sizeof_file_dedupe_range + 8) 8)
    bytes_deduped := p.decode (load r.data (sizeof_file_dedupe_range + 16) 8)
    status := wrapInt32 (p.decode (load r.data (sizeof_file_dedupe_range + 24) 4))
    reserved := p.decode (load r.data (sizeof_file_dedupe_range + 28) 4) }

/-- `bytes_deduped()`. -/
def bytes_deduped (p : Platform) (r : to_dedup_range_result) : Nat :=
  (r.dedupe_range_info p).bytes_deduped

/-- `status()`. -/
def status (p : Platform) (r : to_dedup_range_result) : Int :=
  (r.dedupe_range_info p).status

end to_dedup_range_result

/-! ## Validation and buffer construction -/

/-- Argument positions in `to_dedup_range`. -/
def SRC_FD : Nat := 0

/-- Position of the source offset. -/
def SRC_OFF : Nat := 1

/-- Position of the source length. -/
def SRC_LEN : Nat := 2

/-- Position of the destination descriptor. -/
def DST_FD : Nat := 3

/-- Position of the destination offset. -/
def DST_OFF : Nat := 4

/-- The function `to_dedup_range` (lines 67-166): the exceptions it scheduled
with `Nan::ThrowTypeError`, in order, and the struct it returned. A
`Nan::ThrowTypeError` that is followed by `return result;` ends the function;
the one after the `src_off` integrality test (line 104) is not, and control
falls through to line 106. -/
def to_dedup_range (p : Platform) (info : List JSValue) :
    List JSError × to_dedup_range_result :=
  let result : to_dedup_range_result := {}
  if info.length < 5 then
    ([JSError.typeError "At least 5 arguments required."], result)
  else if (argAt info SRC_FD).IsNullOrUndefined || !(argAt info SRC_FD).IsNumber then
    ([JSError.typeError "Argument src_fd must be a number."], result)
  else
    let srcFdNumber := (argAt info SRC_FD).toDouble
    let srcFdFloor := srcFdNumber.floor
    if srcFdFloor.ne srcFdNumber then
      ([JSError.typeError "Argument src_fd must be an integer."], result)
    else
      let result := { result with srcFd := p.toInt64 srcFdFloor }
      if (argAt info SRC_OFF).IsNullOrUndefined || !(argAt info SRC_OFF).IsNumber then
        ([JSError.typeError "Argument src_off must be a number"], result)
      else
        let srcOffNumber := (argAt info SRC_OFF).toDouble
        if srcOffNumber.lt (JSNumber.ofInt32 0) then
          ([JSError.typeError "Argument src_off must be a positive number."], result)
        else
          let srcOffFloor := srcOffNumber.floor
          let thrown : List JSError :=
            if srcOffFloor.ne srcOffNumber then
              [JSError.typeError "Argument src_off must be an integer."]
            else []
          let result := { result with srcOffset := p.toUInt64 srcOffFloor }
          if (argAt info SRC_LEN).IsNullOrUndefined || !(argAt info SRC_LEN).IsNumber then
            (thrown ++ [JSError.typeError "Argument src_len must be a number."], result)
          else
            let srcLenNumber := (argAt info SRC_LEN).toDouble
            if srcLenNumber.lt (JSNumber.ofInt32 0) then
              (thrown ++ [JSError.typeError "Argument src_len must be a positive number."], result)
            else
              let srcLenFloor := srcLenNumber.floor
              if srcLenFloor.ne srcLenNumber then
                (thrown ++ [JSError.typeError "Argument src_len must be an integer."], result)
              else
                let result := { result with srcLength := p.toUInt64 srcLenFloor }
                if (argAt info DST_FD).IsNullOrUndefined || !(argAt info DST_FD).IsNumber then
                  (thrown ++ [JSError.typeError "Argument dst_fd must be a number."], result)
                else
                  let dstFdNumber := (argAt info DST_FD).toDouble
                  let dstFdFloor := dstFdNumber.floor
                  if dstFdFloor.ne dstFdNumber then
                    (thrown ++ [JSError.typeError "Argument dst_fd must be an integer."], result)
                  else
                    let result := { result with destFd := p.toInt64 dstFdFloor }
                    if (argAt info DST_OFF).IsNullOrUndefined
                        || !(argAt info DST_OFF).IsNumber then
                      (thrown ++ [JSError.typeError "Argument dst_off must be a number."], result)
                    else
                      let dstOffNumber := (argAt info DST_OFF).toDouble
                      if dstOffNumber.lt (JSNumber.ofInt32 0) then
                        (thrown ++ [JSError.typeError "Argument dst_off must be a positive number."],
                          result)
                      else
                        let dstOffFloor := dstOffNumber.floor
                        if dstOffFloor.ne dstOffNumber then
                          (thrown ++ [JSError.typeError "Argument dst_off must be an integer."],
                            result)
                        else
                          let result := { result with destOffset := p.toUInt64 dstOffFloor }
                          -- range->src_offset .. range->reserved2
                          let data := store result.data 0 (p.encode 8 result.srcOffset)
                          let data := store data 8 (p.encode 8 result.srcLength)
                          let data := store data 16 (p.encode 2 1)
                          let data := store data 18 (p.encode 2 0)
                          let data := store data 20 (p.encode 4 0)
                          -- rangeInfo->dest_fd, rangeInfo->dest_offset
                          let data := store data (sizeof_file_dedupe_range + 0)
                            (p.encode 8 (result.destFd % 2 ^ 64).toNat)
                          let data := store data (sizeof_file_dedupe_range + 8)
                            (p.encode 8 result.destOffset)
                          (thrown, { result with data := data, success := true })

/-- The bytes lines 152-162 leave in `data` for the given field values. -/
def builtData (p : Platform) (srcOffset srcLength : Nat) (destFd : Int) (destOffset : Nat) :
    List Nat :=
  store (store (store (store (store (store (store
    (List.replicate (sizeof_file_dedupe_range + sizeof_file_dedupe_range_info) 0)
    0 (p.encode 8 srcOffset))
    8 (p.encode 8 srcLength))
    16 (p.encode 2 1))
    18 (p.encode 2 0))
    20 (p.encode 4 0))
    (sizeof_file_dedupe_range + 0) (p.encode 8 (destFd % 2 ^ 64).toNat))
    (sizeof_file_dedupe_range + 8) (p.encode 8 destOffset)

/-! ## The system call -/

/-- One `ioctl` system call as the kernel sees it: the descriptor, the request
code and the bytes its third argument points to. -/
structure IoctlCall where
  fd : Int
  request : Nat
  arg : List Nat
  deriving DecidableEq

/-- What a finished `ioctl` leaves behind: its return value, the value of
`errno` right after it, and the bytes of the buffer the kernel wrote to. -/
structure IoctlReply where
  ret : Int
  errno : Int
  data : List Nat
  deriving DecidableEq

/-- The kernel, as far as this binding can observe it. -/
abbrev Kernel := IoctlCall → IoctlReply

/-- The libc function `int ioctl(int fd, unsigned long request, ...)`: the
descriptor argument is converted to `int`, the result is an `int`. -/
def ioctl (k : Kernel) (fd : Int) (request : Nat) (data : List Nat) : IoctlCall × IoctlReply :=
  let call : IoctlCall := { fd := wrapInt32 fd, request := request, arg := data }
  (call, { ret := wrapInt32 (k call).ret, errno := (k call).errno, data := (k call).data })

/-! ## The asynchronous worker -/

/-- State of an `IoctlAsyncDedupRangeWorker`: the members `_range`, `_result`
and `_errno`, with `callback` and `errmsg` of the base class
`Nan::AsyncWorker`. -/
structure IoctlAsyncDedupRangeWorker where
  callback : JSValue
  _range : to_dedup_range_result
  _result : Int := -1
  _errno : Int := -1
  errmsg : Option String := none
  deriving DecidableEq

/-- One call of the completion handler: `callback->Call(argc, args, ...)`. -/
structure CallbackCall where
  callback : JSValue
  args : List JSValue
  deriving DecidableEq

namespace IoctlAsyncDedupRangeWorker

/-- `Execute()` (lines 191-201), run on a pool thread: the system call it
issued and the worker afterwards. -/
def Execute (p : Platform) (k : Kernel) (w : IoctlAsyncDedupRangeWorker) :
    IoctlCall × IoctlAsyncDedupRangeWorker :=
  let r := ioctl k w._range.srcFd p.FIDEDUPERANGE w._range.data
  let w := { w with _range := { w._range with data := r.2.data }, _result := r.2.ret }
  let w := { w with _errno := r.2.errno }
  if w._result < 0 then
    (r.1, { w with errmsg := some "An ioctl error occurred." })
  else (r.1, w)

/-- `HandleOKCallback()` (lines 203-214). -/
def HandleOKCallback (p : Platform) (w : IoctlAsyncDedupRangeWorker) : CallbackCall :=
  { callback := w.callback
    args :=
      [ JSValue.null,
        JSValue.number (JSNumber.ofInt32 w._result),
        JSValue.number (JSNumber.ofInt32 (w._range.status p)),
        JSValue.number (JSNumber.ofUInt64 (w._range.bytes_deduped p)) ] }

/-- `HandleErrorCallback()` (lines 216-222). -/
def HandleErrorCallback (w : IoctlAsyncDedupRangeWorker) : CallbackCall :=
  { callback := w.callback
    args := [JSValue.error (JSError.errnoException w._errno "ioctl")] }

/-- `Nan::AsyncWorker::WorkComplete()` of the host library, run on the event
loop once `Execute` has returned: the OK handler when no error message was
set, the error handler otherwise. -/
def WorkComplete (p : Platform) (w : IoctlAsyncDedupRangeWorker) : List CallbackCall :=
  if w.errmsg.isNone then [w.HandleOKCallback p] else [w.HandleErrorCallback]

/-- A queued worker run to its end (`Nan::AsyncQueueWorker`): `Execute`, then
`WorkComplete`. Yields the system call issued and the completion-handler
calls made. -/
def run (p : Platform) (k : Kernel) (w : IoctlAsyncDedupRangeWorker) :
    IoctlCall × List CallbackCall :=
  ((w.Execute p k).1, (w.Execute p k).2.WorkComplete p)

end IoctlAsyncDedupRangeWorker

/-! ## The two entry points -/

/-- Everything one call of an exported method did: the exceptions it
scheduled, the value passed to `info.GetReturnValue().Set`, the system calls
it issued, the workers it queued, and its local `args` when it returned. -/
structure MethodResult where
  thrown : List JSError
  returnValue : Option JSValue := none
  ioctls : List IoctlCall := []
  queued : List IoctlAsyncDedupRangeWorker := []
  args : to_dedup_range_result
  deriving DecidableEq

/-- `IoctlDedupeRangeSync` (lines 169-181). -/
def IoctlDedupeRangeSync (p : Platform) (k : Kernel) (info : List JSValue) : MethodResult :=
  let v := to_dedup_range p info
  let args := v.2
  if args.success then
    let r := ioctl k args.srcFd p.FIDEDUPERANGE args.data
    let args := { args with data := r.2.data }
    let res := r.2.ret
    if res < 0 then
      { thrown := v.1 ++ [JSError.errnoException r.2.errno "ioctl"]
        ioctls := [r.1]
        args := args }
    else
      { thrown := v.1
        returnValue := some (JSValue.number (JSNumber.ofInt32 res))
        ioctls := [r.1]
        args := args }
  else
    { thrown := v.1, args := args }

/-- `IoctlDedupeRangeAsync` (lines 230-254). -/
def IoctlDedupeRangeAsync (p : Platform) (info : List JSValue) : MethodResult :=
  let v := to_dedup_range p info
  let args := v.2
  if args.success then
    if info.length < 6 || (argAt info 5).IsNullOrUndefined || !(argAt info 5).IsFunction then
      { thrown := v.1 ++ [JSError.typeError "Callback function is required."], args := args }
    else
      { thrown := v.1
        queued := [{ callback := argAt info 5, _range := args }]
        args := args }
  else
    { thrown := v.1, args := args }

/-! ## Vocabulary of the specification -/

/-- An exception created by `Nan::ThrowTypeError`: the specification's
`InvalidArgument` and `MissingCallback`. -/
def JSError.isTypeError : JSError → Bool
  | JSError.typeError _ => true
  | JSError.errnoException _ _ => false

/-- The number is below zero. -/
def JSNumber.isNegative : JSNumber → Bool
  | JSNumber.finite d => decide (d.mant < 0)
  | JSNumber.negInf => true
  | _ => false

/-- The number is finite with a non-zero fractional part. -/
def JSNumber.hasFraction : JSNumber → Bool
  | JSNumber.finite d => !d.isInt
  | _ => false

/-- Parameter `i` of the call is missing: there are too few arguments, or it is
`null` or `undefined`, or it is not a number. -/
def missingOrNotNumber (info : List JSValue) (i : Nat) : Bool :=
  decide (info.length ≤ i) || (argAt info i).IsNullOrUndefined || !(argAt info i).IsNumber

/-- The value is a number denoting the integer `n`. -/
def JSValue.isInteger (v : JSValue) (n : Int) : Bool :=
  match v with
  | JSValue.number x => x.toInt? == some n
  | _ => false

/-- The five parameters are valid in the sense of the specification: integral
numbers `fdS`, `offS`, `len`, `fdD`, `offD`, the offsets and the length not
negative. -/
def validParams (info : List JSValue) (fdS offS len fdD offD : Int) : Bool :=
  decide (5 ≤ info.length) &&
    (argAt info 0).isInteger fdS &&
    ((argAt info 1).isInteger offS && decide (0 ≤ offS)) &&
    ((argAt info 2).isInteger len && decide (0 ≤ len)) &&
    (argAt info 3).isInteger fdD &&
    ((argAt info 4).isInteger offD && decide (0 ≤ offD))

/-! ## Sample inputs -/

/-- A little-endian Linux platform with the generic encoding of
`_IOWR(0x94, 54, struct file_dedupe_range)`; conversions whose value does not
fit give the bit pattern `0x8000000000000000`. -/
def refPlatform : Platform :=
  { bigEndian := false
    FIDEDUPERANGE := 0xC0189436
    castInt64 := fun _ => -2 ^ 63
    castUInt64 := fun _ => 2 ^ 63 }

/-- The JavaScript number of a small integer. -/
def jsInt (v : Int) : JSValue := JSValue.number (JSNumber.ofInt32 v)

/-- The JavaScript number `1.5`. -/
def jsOneAndHalf : JSValue :=
  JSValue.number (JSNumber.finite
    { mant := 3, exp := -1, mant_lt := by decide, exp_ge := by decide, exp_le := by decide })

/-- The JavaScript number `4294967299`, that is `2 ^ 32 + 3`. -/
def jsBigFd : JSValue :=
  JSValue.number (JSNumber.finite
    { mant := 4294967299, exp := 0, mant_lt := by decide, exp_ge := by decide,
      exp_le := by decide })

/-- The JavaScript number `9007199254740992`, that is `2 ^ 53`, as
`2 ^ 52 * 2 ^ 1`. -/
def jsTwoPow53 : JSValue :=
  JSValue.number (JSNumber.finite
    { mant := 4503599627370496, exp := 1, mant_lt := by decide, exp_ge := by decide,
      exp_le := by decide })

/-- A kernel that reports success: return value 0, `bytes_deduped = 4096` and
`status = 0` written into the record. -/
def mockKernel : Kernel := fun c =>
  { ret := 0
    errno := 0
    data := store (store c.arg (sizeof_file_dedupe_range + 16) (refPlatform.encode 8 4096))
      (sizeof_file_dedupe_range + 24) (refPlatform.encode 4 0) }

/-- A kernel that fails with `EINVAL` (22) and leaves the buffer alone. -/
def failingKernel : Kernel := fun c => { ret := -1, errno := 22, data := c.arg }

/-- A kernel that reports `bytes_deduped = 2 ^ 53 + 1`. -/
def hugeKernel : Kernel := fun c =>
  { ret := 0
    errno := 0
    data := store c.arg (sizeof_file_dedupe_range + 16)
      (refPlatform.encode 8 9007199254740993) }

/-! ## Lemmas: numbers -/

namespace Finite

theorem den_pos (d : Finite) : 0 < d.den := by
  unfold den; positivity

theorem num_of_exp_neg (d : Finite) (h : d.exp < 0) : d.num = d.mant := by
  unfold num
  have : d.exp.toNat = 0 := by omega
  rw [this]; simp

theorem den_of_exp_nonneg (d : Finite) (h : 0 ≤ d.exp) : d.den = 1 := by
  unfold den
  have : (-d.exp).toNat = 0 := by omega
  rw [this]; simp

theorem isInt_of_exp_nonneg (d : Finite) (h : 0 ≤ d.exp) : d.isInt = true := by
  simp [isInt, den_of_exp_nonneg d h]

theorem eq_self (d : Finite) : d.eq d = true := by
  simp [eq, scaled]

theorem floor_eq_self (d : Finite) : d.floor.eq d = d.isInt := by
  by_cases h : 0 ≤ d.exp
  · rw [isInt_of_exp_nonneg d h]
    simp only [floor, if_pos h]
    exact eq_self d
  · have hneg : d.exp < 0 := by omega
    have hmin : min (0 : Int) d.exp = d.exp := by omega
    have h1 : ((0 : Int) - d.exp).toNat = (-d.exp).toNat := by simp
    have hpos : (0 : Int) < 2 ^ (-d.exp).toNat := by positivity
    simp only [floor, if_neg h, eq, scaled, hmin, sub_self, Int.toNat_zero, pow_zero, mul_one,
      isInt, num_of_exp_neg d hneg, den, h1]
    rw [Bool.eq_iff_iff]
    simp only [beq_iff_eq]
    constructor
    · intro h2
      rw [← h2]
      exact Int.mul_emod_left _ _
    · intro h2
      exact Int.ediv_mul_cancel (Int.dvd_of_emod_eq_zero h2)

theorem lt_zero (d : Finite) (z : Finite) (hz : z.mant = 0) :
    d.lt z = decide (d.mant < 0) := by
  have hpos : (0 : Int) < 2 ^ (d.exp - min d.exp z.exp).toNat := by positivity
  simp only [lt, scaled, hz, zero_mul]
  congr 1
  apply propext
  constructor
  · intro h
    by_contra hc
    have : 0 ≤ d.mant * 2 ^ (d.exp - min d.exp z.exp).toNat := mul_nonneg (by omega) hpos.le
    omega
  · intro h
    exact mul_neg_of_neg_of_pos h hpos

theorem truncInt_floor (d : Finite) : d.floor.truncInt = d.floorInt := by
  by_cases h : 0 ≤ d.exp
  · simp [floor, if_pos h, truncInt, floorInt, den_of_exp_nonneg d h]
  · have hneg : d.exp < 0 := by omega
    have hn : d.floor.num = d.mant / 2 ^ (-d.exp).toNat := by
      simp [floor, if_neg h, num]
    have hd : d.floor.den = 1 := by
      simp [floor, if_neg h, den]
    rw [truncInt, hn, hd, floorInt, num_of_exp_neg d hneg, den]
    simp

theorem floorInt_nonneg (d : Finite) (h : 0 ≤ d.mant) : 0 ≤ d.floorInt := by
  unfold floorInt
  apply Int.ediv_nonneg _ d.den_pos.le
  unfold num
  positivity

theorem floorInt_lt_of_not_isInt (d : Finite) (h : d.isInt = false) : d.floorInt < 2 ^ 53 := by
  have hneg : d.exp < 0 := by
    by_contra hc
    rw [isInt_of_exp_nonneg d (by omega)] at h
    exact Bool.noConfusion h
  have h1 : d.floorInt.natAbs ≤ d.mant.natAbs := by
    rw [floorInt, num_of_exp_neg d hneg]
    exact Int.natAbs_div_le_natAbs _ _
  have := d.mant_lt
  omega

end Finite

namespace JSNumber

theorem floor_ne_finite (d : Finite) : (finite d).floor.ne (finite d) = !d.isInt := by
  simp [floor, ne, Finite.floor_eq_self]

theorem lt_zero_finite (d : Finite) : (finite d).lt (ofInt32 0) = decide (d.mant < 0) := by
  simp only [lt, ofInt32]
  exact Finite.lt_zero d _ (by decide)

end JSNumber

theorem Platform.toInt64_floor (p : Platform) (d : Finite)
    (h : -2 ^ 63 ≤ d.floorInt ∧ d.floorInt < 2 ^ 63) :
    p.toInt64 (JSNumber.finite d).floor = d.floorInt := by
  simp only [JSNumber.floor, Platform.toInt64, Finite.truncInt_floor, if_pos h]

theorem Platform.toUInt64_floor (p : Platform) (d : Finite)
    (h : 0 ≤ d.floorInt ∧ d.floorInt < 2 ^ 64) :
    p.toUInt64 (JSNumber.finite d).floor = d.floorInt.toNat := by
  simp only [JSNumber.floor, Platform.toUInt64, Finite.truncInt_floor, if_pos h]

/-! ## Lemmas: the number model against the rationals -/

namespace Finite

theorem toRat_eq_zpow (d : Finite) : d.toRat = (d.mant : ℚ) * (2 : ℚ) ^ d.exp := by
  unfold toRat num den
  push_cast
  rcases le_or_lt 0 d.exp with h | h
  · have h1 : (-d.exp).toNat = 0 := by omega
    have h2 : ((d.exp.toNat : Int)) = d.exp := Int.toNat_of_nonneg h
    rw [h1, pow_zero, div_one]
    conv_rhs => rw [← h2]
    rw [zpow_natCast]
  · have h1 : d.exp.toNat = 0 := by omega
    have h2 : (((-d.exp).toNat : Int)) = -d.exp := Int.toNat_of_nonneg (by omega)
    have h3 : d.exp = -(((-d.exp).toNat : Int)) := by omega
    rw [h1, pow_zero, mul_one]
    conv_rhs => rw [h3, zpow_neg, zpow_natCast]
    rw [div_eq_mul_inv]

/-- `floorInt` is the floor of the value. -/
theorem floor_toRat (d : Finite) : ⌊d.toRat⌋ = d.floorInt := by
  unfold toRat floorInt
  have hpos : (0 : Int) < d.den := d.den_pos
  rw [Int.floor_eq_iff]
  have hq : (0 : ℚ) < (d.den : ℚ) := by exact_mod_cast hpos
  constructor
  · rw [le_div_iff₀ hq]
    have := Int.ediv_mul_le d.num (ne_of_gt hpos)
    exact_mod_cast this
  · rw [div_lt_iff₀ hq]
    have := Int.lt_ediv_add_one_mul_self d.num hpos
    exact_mod_cast this

/-- `isInt` holds exactly when the value is an integer. -/
theorem isInt_iff (d : Finite) : d.isInt = true ↔ ((d.floorInt : Int) : ℚ) = d.toRat := by
  unfold isInt floorInt toRat
  have hpos : (0 : Int) < d.den := d.den_pos
  have hq : ((d.den : Int) : ℚ) ≠ 0 := by exact_mod_cast (ne_of_gt hpos)
  rw [beq_iff_eq, eq_div_iff hq]
  constructor
  · intro h
    have := Int.ediv_mul_cancel (Int.dvd_of_emod_eq_zero h)
    exact_mod_cast this
  · intro h
    have h' : d.num / d.den * d.den = d.num := by exact_mod_cast h
    rw [← h']
    exact Int.mul_emod_left _ _

/-- The sign test of the validator is the sign of the value. -/
theorem mant_neg_iff (d : Finite) : d.mant < 0 ↔ d.toRat < 0 := by
  rw [toRat_eq_zpow]
  have hp : (0 : ℚ) < (2 : ℚ) ^ d.exp := by positivity
  constructor
  · intro h
    exact mul_neg_of_neg_of_pos (by exact_mod_cast h) hp
  · intro h
    by_contra hc
    have : (0 : ℚ) ≤ (d.mant : ℚ) := by exact_mod_cast (not_lt.1 hc)
    have := mul_nonneg this hp.le
    linarith

theorem scaled_fst (a b : Finite) :
    (((scaled a b).1 : Int) : ℚ) * (2 : ℚ) ^ (min a.exp b.exp) = a.toRat := by
  rw [toRat_eq_zpow]
  simp only [scaled]
  push_cast
  have h : ((a.exp - min a.exp b.exp).toNat : Int) = a.exp - min a.exp b.exp :=
    Int.toNat_of_nonneg (by omega)
  rw [mul_assoc, ← zpow_natCast, h, ← zpow_add₀ (by norm_num : (2 : ℚ) ≠ 0)]
  congr 2
  omega

theorem scaled_snd (a b : Finite) :
    (((scaled a b).2 : Int) : ℚ) * (2 : ℚ) ^ (min a.exp b.exp) = b.toRat := by
  rw [toRat_eq_zpow]
  simp only [scaled]
  push_cast
  have h : ((b.exp - min a.exp b.exp).toNat : Int) = b.exp - min a.exp b.exp :=
    Int.toNat_of_nonneg (by omega)
  rw [mul_assoc, ← zpow_natCast, h, ← zpow_add₀ (by norm_num : (2 : ℚ) ≠ 0)]
  congr 2
  omega

/-- `eq` compares the values. -/
theorem eq_iff (a b : Finite) : a.eq b = true ↔ a.toRat = b.toRat := by
  have hp : (0 : ℚ) < (2 : ℚ) ^ (min a.exp b.exp) := by positivity
  rw [← scaled_fst a b, ← scaled_snd a b, eq, beq_iff_eq]
  constructor
  · intro h
    rw [h]
  · intro h
    have := mul_right_cancel₀ (ne_of_gt hp) h
    exact_mod_cast this

/-- `lt` compares the values. -/
theorem lt_iff (a b : Finite) : a.lt b = true ↔ a.toRat < b.toRat := by
  have hp : (0 : ℚ) < (2 : ℚ) ^ (min a.exp b.exp) := by positivity
  rw [← scaled_fst a b, ← scaled_snd a b, lt, decide_eq_true_eq, mul_lt_mul_right hp]
  exact Int.cast_lt.symm

/-- `floor` yields the double whose value is the floor of the value. -/
theorem toRat_floor (d : Finite) : d.floor.toRat = ((d.floorInt : Int) : ℚ) := by
  by_cases h : 0 ≤ d.exp
  · have hd := den_of_exp_nonneg d h
    simp only [floor, if_pos h, toRat, floorInt, hd]
    simp
  · have hneg : d.exp < 0 := by omega
    have hn : d.floor.num = d.mant / 2 ^ (-d.exp).toNat := by
      simp [floor, if_neg h, num]
    have hd : d.floor.den = 1 := by
      simp [floor, if_neg h, den]
    rw [toRat, hn, hd, floorInt, num_of_exp_neg d hneg, den]
    simp

end Finite

/-- With enough fuel the bits left after dropping `excessBits` fit the
mantissa. -/
theorem excessBits_fits (fuel n : Nat) (h : n < 2 ^ (53 + fuel)) :
    n / 2 ^ excessBits fuel n < 2 ^ 53 := by
  induction fuel generalizing n with
  | zero => simpa [excessBits] using h
  | succ k ih =>
    simp only [excessBits]
    split_ifs with hn
    · simpa using hn
    · have h2 : n / 2 < 2 ^ (53 + k) := by
        rw [Nat.div_lt_iff_lt_mul (by norm_num)]
        calc n < 2 ^ (53 + (k + 1)) := h
          _ = 2 ^ (53 + k) * 2 := by rw [← Nat.add_assoc, pow_succ]
      have := ih (n / 2) h2
      rw [pow_succ, mul_comm, ← Nat.div_div_eq_div_mul]
      exact this

/-- The double chosen by `roundUInt64` is a nearest one: it differs from `n` by
at most half of `2 ^ s`, the weight of the last mantissa bit when `s` low bits
of `n` do not fit. -/
theorem roundUInt64_nearest (n : Nat) (h : n < 2 ^ 64) :
    2 * (((roundUInt64 n).1 * 2 ^ (roundUInt64 n).2 : Nat) - (n : Int)).natAbs
      ≤ 2 ^ excessBits 11 n := by
  have hq := excessBits_fits 11 n (by simpa using h)
  have hdm := Nat.div_add_mod n (2 ^ excessBits 11 n)
  have hr : n % 2 ^ excessBits 11 n < 2 ^ excessBits 11 n := Nat.mod_lt _ (by positivity)
  unfold roundUInt64
  dsimp only
  generalize hs : excessBits 11 n = s at *
  generalize hP : 2 ^ s = P at *
  generalize hqq : n / P = q at *
  generalize hrr : n % P = r at *
  have hval : ∀ x : Nat, x = P * q + P ∨ x = P * q →
      (x = P * q + P → P ≤ 2 * r) → (x = P * q → 2 * r ≤ P) →
      2 * ((x : Int) - (n : Int)).natAbs ≤ P := by
    intro x hx h1 h2
    rcases hx with hx | hx
    · have := h1 hx
      subst hx
      omega
    · have := h2 hx
      subst hx
      omega
  have e1 : (q + 1) * P = P * q + P := by ring
  have e2 : q * P = P * q := by ring
  by_cases hup : (decide (P < 2 * r) || (2 * r == P && q % 2 == 1)) = true
  · have hup' : P ≤ 2 * r := by
      simp only [Bool.or_eq_true, decide_eq_true_eq, Bool.and_eq_true, beq_iff_eq] at hup
      omega
    rw [if_pos hup]
    by_cases hm : q + 1 < 2 ^ 53
    · rw [if_pos hm]
      dsimp only
      rw [hP]
      exact hval _ (Or.inl e1) (fun _ => hup') (fun hc => by omega)
    · rw [if_neg hm]
      dsimp only
      have hq1 : q + 1 = 2 ^ 53 := by omega
      have hv : 2 ^ 52 * 2 ^ (s + 1) = P * q + P := by
        rw [← e1, hq1, ← hP, pow_succ]
        ring
      exact hval _ (Or.inl hv) (fun _ => hup') (fun hc => by omega)
  · have hup' : 2 * r ≤ P := by
      simp only [Bool.or_eq_true, decide_eq_true_eq, Bool.and_eq_true, beq_iff_eq,
        not_or] at hup
      omega
    rw [if_neg hup, if_pos hq]
    dsimp only
    rw [hP]
    exact hval _ (Or.inr e2) (fun hc => by omega) (fun _ => hup')

/-! ## Lemmas: the byte buffer -/

theorem bytesLE_length (w v : Nat) : (bytesLE w v).length = w := by
  induction w generalizing v with
  | zero => rfl
  | succ k ih => simp [bytesLE, ih]

theorem valueLE_bytesLE (w v : Nat) : valueLE (bytesLE w v) = v % 256 ^ w := by
  induction w generalizing v with
  | zero => simp [bytesLE, valueLE, Nat.mod_one]
  | succ k ih =>
    simp only [bytesLE, valueLE, ih, Nat.mod_mod]
    rw [pow_succ, mul_comm (256 ^ k) 256, Nat.mod_mul, add_comm]

theorem Platform.encode_length (p : Platform) (w v : Nat) : (p.encode w v).length = w := by
  unfold Platform.encode
  split <;> simp [bytesLE_length]

theorem Platform.decode_encode (p : Platform) (w v : Nat) :
    p.decode (p.encode w v) = v % 256 ^ w := by
  unfold Platform.decode Platform.encode
  split <;> simp [valueLE_bytesLE]

theorem load_store_same (data bs : List Nat) (off w : Nat) (h : off ≤ data.length)
    (hw : w = bs.length) : load (store data off bs) off w = bs := by
  subst hw
  have h1 : (data.take off).length = off := by simp [List.length_take]; omega
  simp only [load, store, List.append_assoc]
  rw [List.drop_append_of_le_length (by omega)]
  rw [List.drop_of_length_le (by omega)]
  simp

theorem load_store_before (data bs : List Nat) (off o w : Nat) (h : o + w ≤ off)
    (h2 : off ≤ data.length) : load (store data off bs) o w = load data o w := by
  have h1 : (data.take off).length = off := by simp [List.length_take]; omega
  simp only [load, store, List.append_assoc]
  rw [List.drop_append_of_le_length (by omega)]
  rw [List.take_append_of_le_length (by simp [List.length_drop]; omega)]
  rw [List.drop_take]
  rw [List.take_take]
  congr 1
  omega

theorem load_store_after (data bs : List Nat) (off o w : Nat) (h : off + bs.length ≤ o)
    (h2 : off ≤ data.length) : load (store data off bs) o w = load data o w := by
  have h1 : (data.take off ++ bs).length = off + bs.length := by
    simp [List.length_take]; omega
  simp only [load, store]
  rw [List.drop_append_eq_append_drop]
  rw [List.drop_of_length_le (by omega)]
  simp only [List.nil_append, h1, List.drop_drop]
  congr 2
  omega

/-! ## Lemmas: validation -/

theorem IsNumber_iff (v : JSValue) : v.IsNumber = true ↔ ∃ x, v = JSValue.number x := by
  cases v <;> simp [JSValue.IsNumber]

theorem number_of_check (v : JSValue) (h : ¬(v.IsNullOrUndefined || !v.IsNumber) = true) :
    ∃ x, v = JSValue.number x := by
  cases v <;> simp [JSValue.IsNumber, JSValue.IsNullOrUndefined] at h ⊢

/-- What a successful validation implies about the arguments. -/
theorem to_dedup_range_success (p : Platform) (info : List JSValue)
    (h : (to_dedup_range p info).2.success = true) :
    5 ≤ info.length ∧ ∃ a b c d e,
      argAt info 0 = .number a ∧ argAt info 1 = .number b ∧ argAt info 2 = .number c ∧
      argAt info 3 = .number d ∧ argAt info 4 = .number e ∧
      a.floor.ne a = false ∧ b.lt (.ofInt32 0) = false ∧
      c.lt (.ofInt32 0) = false ∧ c.floor.ne c = false ∧ d.floor.ne d = false ∧
      e.lt (.ofInt32 0) = false ∧ e.floor.ne e = false := by
  unfold to_dedup_range at h
  dsimp only [SRC_FD, SRC_OFF, SRC_LEN, DST_FD, DST_OFF] at h
  by_cases h0 : info.length < 5
  · rw [if_pos h0] at h; exact (Bool.false_ne_true h).elim
  rw [if_neg h0] at h
  by_cases h1 : ((argAt info 0).IsNullOrUndefined || !(argAt info 0).IsNumber) = true
  · rw [if_pos h1] at h; exact (Bool.false_ne_true h).elim
  rw [if_neg h1] at h
  by_cases h2 : (argAt info 0).toDouble.floor.ne (argAt info 0).toDouble = true
  · rw [if_pos h2] at h; exact (Bool.false_ne_true h).elim
  rw [if_neg h2] at h
  by_cases h3 : ((argAt info 1).IsNullOrUndefined || !(argAt info 1).IsNumber) = true
  · rw [if_pos h3] at h; exact (Bool.false_ne_true h).elim
  rw [if_neg h3] at h
  by_cases h4 : (argAt info 1).toDouble.lt (JSNumber.ofInt32 0) = true
  · rw [if_pos h4] at h; exact (Bool.false_ne_true h).elim
  rw [if_neg h4] at h
  by_cases h5 : ((argAt info 2).IsNullOrUndefined || !(argAt info 2).IsNumber) = true
  · rw [if_pos h5] at h; exact (Bool.false_ne_true h).elim
  rw [if_neg h5] at h
  by_cases h6 : (argAt info 2).toDouble.lt (JSNumber.ofInt32 0) = true
  · rw [if_pos h6] at h; exact (Bool.false_ne_true h).elim
  rw [if_neg h6] at h
  by_cases h7 : (argAt info 2).toDouble.floor.ne (argAt info 2).toDouble = true
  · rw [if_pos h7] at h; exact (Bool.false_ne_true h).elim
  rw [if_neg h7] at h
  by_cases h8 : ((argAt info 3).IsNullOrUndefined || !(argAt info 3).IsNumber) = true
  · rw [if_pos h8] at h; exact (Bool.false_ne_true h).elim
  rw [if_neg h8] at h
  by_cases h9 : (argAt info 3).toDouble.floor.ne (argAt info 3).toDouble = true
  · rw [if_pos h9] at h; exact (Bool.false_ne_true h).elim
  rw [if_neg h9] at h
  by_cases h10 : ((argAt info 4).IsNullOrUndefined || !(argAt info 4).IsNumber) = true
  · rw [if_pos h10] at h; exact (Bool.false_ne_true h).elim
  rw [if_neg h10] at h
  by_cases h11 : (argAt info 4).toDouble.lt (JSNumber.ofInt32 0) = true
  · rw [if_pos h11] at h; exact (Bool.false_ne_true h).elim
  rw [if_neg h11] at h
  by_cases h12 : (argAt info 4).toDouble.floor.ne (argAt info 4).toDouble = true
  · rw [if_pos h12] at h; exact (Bool.false_ne_true h).elim
  rw [if_neg h12] at h
  clear h
  obtain ⟨a, ha⟩ := number_of_check _ h1
  obtain ⟨b, hb⟩ := number_of_check _ h3
  obtain ⟨c, hc⟩ := number_of_check _ h5
  obtain ⟨d, hd⟩ := number_of_check _ h8
  obtain ⟨e, he⟩ := number_of_check _ h10
  rw [ha] at h2
  rw [hb] at h4
  rw [hc] at h6 h7
  rw [hd] at h9
  rw [he] at h11 h12
  simp only [JSValue.toDouble, Bool.not_eq_true] at h2 h4 h6 h7 h9 h11 h12
  exact ⟨by omega, a, b, c, d, e, ha, hb, hc, hd, he, h2, h4, h6, h7, h9, h11, h12⟩

theorem to_dedup_range_accept (p : Platform) (info : List JSValue) (a b c d e : JSNumber)
    (hlen : 5 ≤ info.length)
    (h0 : argAt info 0 = .number a) (h1 : argAt info 1 = .number b)
    (h2 : argAt info 2 = .number c) (h3 : argAt info 3 = .number d)
    (h4 : argAt info 4 = .number e)
    (ha : a.floor.ne a = false) (hb : b.lt (.ofInt32 0) = false)
    (hc : c.lt (.ofInt32 0) = false) (hc' : c.floor.ne c = false)
    (hd : d.floor.ne d = false)
    (he : e.lt (.ofInt32 0) = false) (he' : e.floor.ne e = false) :
    to_dedup_range p info =
      (if b.floor.ne b = true then [JSError.typeError "Argument src_off must be an integer."]
        else [],
       { success := true
         srcFd := p.toInt64 a.floor
         srcOffset := p.toUInt64 b.floor
         srcLength := p.toUInt64 c.floor
         destFd := p.toInt64 d.floor
         destOffset := p.toUInt64 e.floor
         data := builtData p (p.toUInt64 b.floor) (p.toUInt64 c.floor) (p.toInt64 d.floor)
           (p.toUInt64 e.floor) }) := by
  have hl : ¬ info.length < 5 := by omega
  unfold to_dedup_range
  dsimp only [SRC_FD, SRC_OFF, SRC_LEN, DST_FD, DST_OFF]
  rw [if_neg hl, h0, h1, h2, h3, h4]
  simp only [JSValue.IsNullOrUndefined, JSValue.IsNumber, JSValue.toDouble, ha, hb, hc, hc', hd,
    he, he', Bool.not_true, Bool.or_self, Bool.false_eq_true, if_false, List.append_nil, builtData]


theorem store_length_eq (data bs : List Nat) (off : Nat) :
    (store data off bs).length =
      min off data.length + bs.length + (data.length - (off + bs.length)) := by
  simp only [store, List.length_append, List.length_take, List.length_drop]

theorem builtData_length (p : Platform) (so sl : Nat) (fd : Int) (dof : Nat) :
    (builtData p so sl fd dof).length = 56 := by
  simp [builtData, store_length_eq, Platform.encode_length, sizeof_file_dedupe_range,
    sizeof_file_dedupe_range_info]

theorem builtData_load (p : Platform) (so sl : Nat) (fd : Int) (dof : Nat) :
    load (builtData p so sl fd dof) 0 8 = p.encode 8 so ∧
    load (builtData p so sl fd dof) 8 8 = p.encode 8 sl ∧
    load (builtData p so sl fd dof) 16 2 = p.encode 2 1 ∧
    load (builtData p so sl fd dof) 18 2 = p.encode 2 0 ∧
    load (builtData p so sl fd dof) 20 4 = p.encode 4 0 ∧
    load (builtData p so sl fd dof) 24 8 = p.encode 8 (fd % 2 ^ 64).toNat ∧
    load (builtData p so sl fd dof) 32 8 = p.encode 8 dof ∧
    load (builtData p so sl fd dof) 40 8 = List.replicate 8 0 ∧
    load (builtData p so sl fd dof) 48 4 = List.replicate 4 0 ∧
    load (builtData p so sl fd dof) 52 4 = List.replicate 4 0 := by
  simp only [builtData, sizeof_file_dedupe_range, sizeof_file_dedupe_range_info]
  refine ⟨?_, ?_, ?_, ?_, ?_, ?_, ?_, ?_, ?_, ?_⟩
  all_goals
    simp (disch := simp [store_length_eq, Platform.encode_length]) only
      [load_store_same, load_store_before, load_store_after]
  all_goals simp [load]

theorem valueLE_replicate_zero (n : Nat) : valueLE (List.replicate n 0) = 0 := by
  induction n with
  | zero => rfl
  | succ k ih => simp [List.replicate_succ, valueLE, ih]

theorem Platform.decode_replicate_zero (p : Platform) (n : Nat) :
    p.decode (List.replicate n 0) = 0 := by
  unfold Platform.decode
  split <;> simp [valueLE_replicate_zero]

theorem builtData_dedupe_range (p : Platform) (r : to_dedup_range_result) (so sl : Nat)
    (fd : Int) (dof : Nat) (hr : r.data = builtData p so sl fd dof)
    (hso : so < 2 ^ 64) (hsl : sl < 2 ^ 64) :
    r.dedupe_range p =
      { src_offset := so, src_length := sl, dest_count := 1, reserved1 := 0, reserved2 := 0 } := by
  obtain ⟨h1, h2, h3, h4, h5, -⟩ := builtData_load p so sl fd dof
  simp only [to_dedup_range_result.dedupe_range, hr, h1, h2, h3, h4, h5, Platform.decode_encode]
  have e1 : so % 256 ^ 8 = so := Nat.mod_eq_of_lt (by norm_num at hso ⊢; exact hso)
  have e2 : sl % 256 ^ 8 = sl := Nat.mod_eq_of_lt (by norm_num at hsl ⊢; exact hsl)
  rw [e1, e2]
  rfl

theorem builtData_dedupe_range_info (p : Platform) (r : to_dedup_range_result) (so sl : Nat)
    (fd : Int) (dof : Nat) (hr : r.data = builtData p so sl fd dof)
    (hfd : -2 ^ 63 ≤ fd ∧ fd < 2 ^ 63) (hdof : dof < 2 ^ 64) :
    r.dedupe_range_info p =
      { dest_fd := fd, dest_offset := dof, bytes_deduped := 0, status := 0, reserved := 0 } := by
  obtain ⟨-, -, -, -, -, h6, h7, h8, h9, h10⟩ := builtData_load p so sl fd dof
  simp only [to_dedup_range_result.dedupe_range_info, hr, sizeof_file_dedupe_range, h6, h7, h8,
    h9, h10, Platform.decode_encode, Platform.decode_replicate_zero]
  have e1 : dof % 256 ^ 8 = dof := Nat.mod_eq_of_lt (by norm_num at hdof ⊢; exact hdof)
  have e2 : wrapInt64 (((fd % 2 ^ 64).toNat % 256 ^ 8 : Nat) : Int) = fd := by
    unfold wrapInt64
    norm_num
    omega
  rw [e1, e2]
  rfl

theorem isTypeError_of_mem_singleton (m : String) :
    ∀ e ∈ [JSError.typeError m], e.isTypeError = true := by
  intro e he
  rw [List.mem_singleton] at he
  subst he
  rfl

theorem isTypeError_of_mem_ite (c : Prop) [Decidable c] (m1 m2 : String) :
    ∀ e ∈ (if c then [JSError.typeError m1] else []) ++ [JSError.typeError m2],
      e.isTypeError = true := by
  intro e he
  split at he <;> simp at he
  · rcases he with rfl | rfl <;> rfl
  · subst he
    rfl

/-- Every exception the validator schedules is a `TypeError`, and it schedules
at least one whenever it returns `success = false`. -/
theorem to_dedup_range_thrown (p : Platform) (info : List JSValue) :
    (∀ e ∈ (to_dedup_range p info).1, e.isTypeError = true) ∧
      ((to_dedup_range p info).2.success = false → (to_dedup_range p info).1 ≠ []) := by
  unfold to_dedup_range
  dsimp only [SRC_FD, SRC_OFF, SRC_LEN, DST_FD, DST_OFF]
  by_cases h0 : info.length < 5
  · rw [if_pos h0]
    exact ⟨isTypeError_of_mem_singleton _, fun _ => by simp⟩
  rw [if_neg h0]
  by_cases h1 : ((argAt info 0).IsNullOrUndefined || !(argAt info 0).IsNumber) = true
  · rw [if_pos h1]
    exact ⟨isTypeError_of_mem_singleton _, fun _ => by simp⟩
  rw [if_neg h1]
  by_cases h2 : (argAt info 0).toDouble.floor.ne (argAt info 0).toDouble = true
  · rw [if_pos h2]
    exact ⟨isTypeError_of_mem_singleton _, fun _ => by simp⟩
  rw [if_neg h2]
  by_cases h3 : ((argAt info 1).IsNullOrUndefined || !(argAt info 1).IsNumber) = true
  · rw [if_pos h3]
    exact ⟨isTypeError_of_mem_singleton _, fun _ => by simp⟩
  rw [if_neg h3]
  by_cases h4 : (argAt info 1).toDouble.lt (JSNumber.ofInt32 0) = true
  · rw [if_pos h4]
    exact ⟨isTypeError_of_mem_singleton _, fun _ => by simp⟩
  rw [if_neg h4]
  by_cases h5 : ((argAt info 2).IsNullOrUndefined || !(argAt info 2).IsNumber) = true
  · rw [if_pos h5]
    exact ⟨isTypeError_of_mem_ite _ _ _, fun _ => by simp⟩
  rw [if_neg h5]
  by_cases h6 : (argAt info 2).toDouble.lt (JSNumber.ofInt32 0) = true
  · rw [if_pos h6]
    exact ⟨isTypeError_of_mem_ite _ _ _, fun _ => by simp⟩
  rw [if_neg h6]
  by_cases h7 : (argAt info 2).toDouble.floor.ne (argAt info 2).toDouble = true
  · rw [if_pos h7]
    exact ⟨isTypeError_of_mem_ite _ _ _, fun _ => by simp⟩
  rw [if_neg h7]
  by_cases h8 : ((argAt info 3).IsNullOrUndefined || !(argAt info 3).IsNumber) = true
  · rw [if_pos h8]
    exact ⟨isTypeError_of_mem_ite _ _ _, fun _ => by simp⟩
  rw [if_neg h8]
  by_cases h9 : (argAt info 3).toDouble.floor.ne (argAt info 3).toDouble = true
  · rw [if_pos h9]
    exact ⟨isTypeError_of_mem_ite _ _ _, fun _ => by simp⟩
  rw [if_neg h9]
  by_cases h10 : ((argAt info 4).IsNullOrUndefined || !(argAt info 4).IsNumber) = true
  · rw [if_pos h10]
    exact ⟨isTypeError_of_mem_ite _ _ _, fun _ => by simp⟩
  rw [if_neg h10]
  by_cases h11 : (argAt info 4).toDouble.lt (JSNumber.ofInt32 0) = true
  · rw [if_pos h11]
    exact ⟨isTypeError_of_mem_ite _ _ _, fun _ => by simp⟩
  rw [if_neg h11]
  by_cases h12 : (argAt info 4).toDouble.floor.ne (argAt info 4).toDouble = true
  · rw [if_pos h12]
    exact ⟨isTypeError_of_mem_ite _ _ _, fun _ => by simp⟩
  rw [if_neg h12]
  constructor
  · intro e he
    dsimp only at he
    split at he
    · rw [List.mem_singleton] at he
      subst he
      rfl
    · exact absurd he (List.not_mem_nil e)
  · intro h
    exact (Bool.false_ne_true h.symm).elim

theorem JSNumber.lt_zero_eq_isNegative (x : JSNumber) :
    x.lt (JSNumber.ofInt32 0) = x.isNegative := by
  cases x with
  | finite d => exact JSNumber.lt_zero_finite d
  | nan => rfl
  | posInf => rfl
  | negInf => rfl

theorem JSNumber.floor_ne_of_hasFraction (x : JSNumber) (h : x.hasFraction = true) :
    x.floor.ne x = true := by
  cases x with
  | finite d => rw [JSNumber.floor_ne_finite]; exact h
  | nan => rfl
  | posInf => exact absurd h (by decide)
  | negInf => exact absurd h (by decide)

theorem JSNumber.toInt?_eq_some (x : JSNumber) (n : Int) (h : x.toInt? = some n) :
    ∃ d, x = JSNumber.finite d ∧ d.isInt = true ∧ d.floorInt = n := by
  cases x with
  | finite d =>
    simp only [JSNumber.toInt?] at h
    split at h
    · rename_i hd
      exact ⟨d, rfl, hd, Option.some.inj h⟩
    · exact absurd h (by simp)
  | nan => exact absurd h (by simp [JSNumber.toInt?])
  | posInf => exact absurd h (by simp [JSNumber.toInt?])
  | negInf => exact absurd h (by simp [JSNumber.toInt?])

theorem JSValue.isInteger_eq_true (v : JSValue) (n : Int) (h : v.isInteger n = true) :
    ∃ d, v = JSValue.number (JSNumber.finite d) ∧ d.isInt = true ∧ d.floorInt = n := by
  cases v with
  | number x =>
    simp only [JSValue.isInteger, beq_iff_eq] at h
    obtain ⟨d, hx, hd, hn⟩ := JSNumber.toInt?_eq_some x n h
    exact ⟨d, by rw [hx], hd, hn⟩
  | _ => exact absurd h (by simp [JSValue.isInteger])

theorem Finite.mant_nonneg_of_floorInt (d : Finite) (h : 0 ≤ d.floorInt) : ¬ d.mant < 0 := by
  intro hm
  have hnum : d.num < 0 := by
    unfold Finite.num
    exact mul_neg_of_neg_of_pos hm (by positivity)
  have := Int.ediv_neg' hnum d.den_pos
  unfold Finite.floorInt at h
  omega

theorem Platform.toUInt64_lt (p : Platform) (x : JSNumber) : p.toUInt64 x < 2 ^ 64 := by
  cases x with
  | finite d =>
    simp only [Platform.toUInt64]
    split
    · omega
    · exact Nat.mod_lt _ (by norm_num)
  | nan => exact Nat.mod_lt _ (by norm_num)
  | posInf => exact Nat.mod_lt _ (by norm_num)
  | negInf => exact Nat.mod_lt _ (by norm_num)

theorem wrapInt64_range (v : Int) : -2 ^ 63 ≤ wrapInt64 v ∧ wrapInt64 v < 2 ^ 63 := by
  unfold wrapInt64
  omega

theorem wrapInt32_range (v : Int) : -2 ^ 31 ≤ wrapInt32 v ∧ wrapInt32 v < 2 ^ 31 := by
  unfold wrapInt32
  omega

theorem wrapInt32_of_range (v : Int) (h : -2 ^ 31 ≤ v ∧ v < 2 ^ 31) : wrapInt32 v = v := by
  unfold wrapInt32
  omega

theorem Platform.toInt64_range (p : Platform) (x : JSNumber) :
    -2 ^ 63 ≤ p.toInt64 x ∧ p.toInt64 x < 2 ^ 63 := by
  cases x with
  | finite d =>
    simp only [Platform.toInt64]
    split
    · assumption
    · exact wrapInt64_range _
  | nan => exact wrapInt64_range _
  | posInf => exact wrapInt64_range _
  | negInf => exact wrapInt64_range _

theorem JSNumber.toInt?_ofInt32 (v : Int) : (JSNumber.ofInt32 v).toInt? = some (wrapInt32 v) := by
  simp [JSNumber.ofInt32, JSNumber.toInt?, Finite.isInt, Finite.floorInt, Finite.num, Finite.den]

theorem JSNumber.toInt?_ofUInt64 (n : Nat) (h : n ≤ 2 ^ 53) :
    (JSNumber.ofUInt64 n).toInt? = some (n : Int) := by
  rcases Nat.lt_or_ge n (2 ^ 53) with hlt | hge
  · have hlt' : n < 9007199254740992 := by omega
    have h64 : n % 18446744073709551616 = n := Nat.mod_eq_of_lt (by omega)
    have hs : excessBits 11 n = 0 := by simp [excessBits, hlt']
    have hr : roundUInt64 n = (n, 0) := by
      simp [roundUInt64, hs, hlt', Nat.mod_one]
    simp [JSNumber.ofUInt64, h64, hr, JSNumber.toInt?, Finite.isInt, Finite.floorInt,
      Finite.num, Finite.den]
  · have : n = 2 ^ 53 := by omega
    subst this
    decide

/-- Valid parameters pass every check of the validator, and their conversions
are the integers they denote when those fit the field. -/
theorem validParams_checks (info : List JSValue) (fdS offS len fdD offD : Int)
    (h : validParams info fdS offS len fdD offD = true) :
    5 ≤ info.length ∧ ∃ a b c d e : Finite,
      argAt info 0 = .number (.finite a) ∧ argAt info 1 = .number (.finite b) ∧
      argAt info 2 = .number (.finite c) ∧ argAt info 3 = .number (.finite d) ∧
      argAt info 4 = .number (.finite e) ∧
      (a.isInt = true ∧ a.floorInt = fdS) ∧ (b.isInt = true ∧ b.floorInt = offS ∧ 0 ≤ offS) ∧
      (c.isInt = true ∧ c.floorInt = len ∧ 0 ≤ len) ∧ (d.isInt = true ∧ d.floorInt = fdD) ∧
      (e.isInt = true ∧ e.floorInt = offD ∧ 0 ≤ offD) := by
  simp only [validParams, Bool.and_eq_true, decide_eq_true_eq] at h
  obtain ⟨⟨⟨⟨⟨hlen, ha⟩, hb, hb0⟩, hc, hc0⟩, hd⟩, he, he0⟩ := h
  obtain ⟨a, h0, ha1, ha2⟩ := JSValue.isInteger_eq_true _ _ ha
  obtain ⟨b, h1, hb1, hb2⟩ := JSValue.isInteger_eq_true _ _ hb
  obtain ⟨c, h2, hc1, hc2⟩ := JSValue.isInteger_eq_true _ _ hc
  obtain ⟨d, h3, hd1, hd2⟩ := JSValue.isInteger_eq_true _ _ hd
  obtain ⟨e, h4, he1, he2⟩ := JSValue.isInteger_eq_true _ _ he
  exact ⟨hlen, a, b, c, d, e, h0, h1, h2, h3, h4, ⟨ha1, ha2⟩, ⟨hb1, hb2, hb0⟩, ⟨hc1, hc2, hc0⟩,
    ⟨hd1, hd2⟩, ⟨he1, he2, he0⟩⟩

theorem JSNumber.floor_ne_of_isInt (d : Finite) (h : d.isInt = true) :
    (JSNumber.finite d).floor.ne (JSNumber.finite d) = false := by
  rw [JSNumber.floor_ne_finite, h]; rfl

theorem JSNumber.lt_zero_of_floorInt_nonneg (d : Finite) (h : 0 ≤ d.floorInt) :
    (JSNumber.finite d).lt (JSNumber.ofInt32 0) = false := by
  rw [JSNumber.lt_zero_finite]
  exact decide_eq_false (Finite.mant_nonneg_of_floorInt d h)

/-- The validator's result on valid parameters. -/
theorem to_dedup_range_valid (p : Platform) (info : List JSValue) (fdS offS len fdD offD : Int)
    (h : validParams info fdS offS len fdD offD = true) :
    ∃ a b c d e : JSNumber,
      to_dedup_range p info =
        ([], { success := true
               srcFd := p.toInt64 a.floor
               srcOffset := p.toUInt64 b.floor
               srcLength := p.toUInt64 c.floor
               destFd := p.toInt64 d.floor
               destOffset := p.toUInt64 e.floor
               data := builtData p (p.toUInt64 b.floor) (p.toUInt64 c.floor) (p.toInt64 d.floor)
                 (p.toUInt64 e.floor) }) ∧
      (-2 ^ 63 ≤ fdS ∧ fdS < 2 ^ 63 → p.toInt64 a.floor = fdS) ∧
      (offS < 2 ^ 64 → p.toUInt64 b.floor = offS.toNat) ∧
      (len < 2 ^ 64 → p.toUInt64 c.floor = len.toNat) ∧
      (-2 ^ 63 ≤ fdD ∧ fdD < 2 ^ 63 → p.toInt64 d.floor = fdD) ∧
      (offD < 2 ^ 64 → p.toUInt64 e.floor = offD.toNat) := by
  obtain ⟨hlen, a, b, c, d, e, h0, h1, h2, h3, h4, ⟨ha1, ha2⟩, ⟨hb1, hb2, hb0⟩, ⟨hc1, hc2, hc0⟩,
    ⟨hd1, hd2⟩, ⟨he1, he2, he0⟩⟩ := validParams_checks info fdS offS len fdD offD h
  refine ⟨.finite a, .finite b, .finite c, .finite d, .finite e, ?_, ?_, ?_, ?_, ?_, ?_⟩
  · have := to_dedup_range_accept p info _ _ _ _ _ hlen h0 h1 h2 h3 h4
      (JSNumber.floor_ne_of_isInt a ha1)
      (JSNumber.lt_zero_of_floorInt_nonneg b (by omega))
      (JSNumber.lt_zero_of_floorInt_nonneg c (by omega))
      (JSNumber.floor_ne_of_isInt c hc1)
      (JSNumber.floor_ne_of_isInt d hd1)
      (JSNumber.lt_zero_of_floorInt_nonneg e (by omega))
      (JSNumber.floor_ne_of_isInt e he1)
    rw [this, JSNumber.floor_ne_of_isInt b hb1]
    rfl
  · intro hr
    exact ha2 ▸ Platform.toInt64_floor p a (by rw [ha2]; exact hr)
  · intro hr
    rw [Platform.toUInt64_floor p b (by rw [hb2]; exact ⟨hb0, hr⟩), hb2]
  · intro hr
    rw [Platform.toUInt64_floor p c (by rw [hc2]; exact ⟨hc0, hr⟩), hc2]
  · intro hr
    exact hd2 ▸ Platform.toInt64_floor p d (by rw [hd2]; exact hr)
  · intro hr
    rw [Platform.toUInt64_floor p e (by rw [he2]; exact ⟨he0, hr⟩), he2]

/-! ## Lemmas: the entry points -/

/-- The asynchronous entry point on an accepted request with a function as
sixth argument. -/
theorem IoctlDedupeRangeAsync_queues (p : Platform) (info : List JSValue)
    (h : (to_dedup_range p info).2.success = true) (hf : (argAt info 5).IsFunction = true) :
    IoctlDedupeRangeAsync p info =
      { thrown := (to_dedup_range p info).1
        queued := [{ callback := argAt info 5, _range := (to_dedup_range p info).2 }]
        args := (to_dedup_range p info).2 } := by
  have hlen : ¬ info.length < 6 := by
    intro hl
    have : argAt info 5 = JSValue.undefined := by
      unfold argAt
      rw [List.getD_eq_default]
      omega
    rw [this] at hf
    exact Bool.noConfusion hf
  have hnn : (argAt info 5).IsNullOrUndefined = false := by
    cases hv5 : argAt info 5 <;> rw [hv5] at hf <;> first | rfl | exact Bool.noConfusion hf
  have hcond : (decide (info.length < 6) || (argAt info 5).IsNullOrUndefined ||
      !(argAt info 5).IsFunction) = false := by
    simp [hlen, hnn, hf]
  simp only [IoctlDedupeRangeAsync, h, if_true, hcond, Bool.false_eq_true, if_false]

/-- The worker after `Execute`. -/
theorem Execute_eq (p : Platform) (k : Kernel) (cb : JSValue) (range : to_dedup_range_result) :
    (IoctlAsyncDedupRangeWorker.Execute p k { callback := cb, _range := range }) =
      ((ioctl k range.srcFd p.FIDEDUPERANGE range.data).1,
        { callback := cb
          _range := { range with data := (ioctl k range.srcFd p.FIDEDUPERANGE range.data).2.data }
          _result := (ioctl k range.srcFd p.FIDEDUPERANGE range.data).2.ret
          _errno := (ioctl k range.srcFd p.FIDEDUPERANGE range.data).2.errno
          errmsg := if (ioctl k range.srcFd p.FIDEDUPERANGE range.data).2.ret < 0
            then some "An ioctl error occurred." else none }) := by
  simp only [IoctlAsyncDedupRangeWorker.Execute]
  split <;> rfl

/-- The synchronous entry point on an accepted request. -/
theorem IoctlDedupeRangeSync_accept (p : Platform) (k : Kernel) (info : List JSValue)
    (h : (to_dedup_range p info).2.success = true) :
    IoctlDedupeRangeSync p k info =
      if (ioctl k (to_dedup_range p info).2.srcFd p.FIDEDUPERANGE
          (to_dedup_range p info).2.data).2.ret < 0 then
        { thrown := (to_dedup_range p info).1 ++
            [JSError.errnoException (ioctl k (to_dedup_range p info).2.srcFd p.FIDEDUPERANGE
              (to_dedup_range p info).2.data).2.errno "ioctl"]
          ioctls := [(ioctl k (to_dedup_range p info).2.srcFd p.FIDEDUPERANGE
            (to_dedup_range p info).2.data).1]
          args := { (to_dedup_range p info).2 with
            data := (ioctl k (to_dedup_range p info).2.srcFd p.FIDEDUPERANGE
              (to_dedup_range p info).2.data).2.data } }
      else
        { thrown := (to_dedup_range p info).1
          returnValue := some (JSValue.number (JSNumber.ofInt32
            (ioctl k (to_dedup_range p info).2.srcFd p.FIDEDUPERANGE
              (to_dedup_range p info).2.data).2.ret))
          ioctls := [(ioctl k (to_dedup_range p info).2.srcFd p.FIDEDUPERANGE
            (to_dedup_range p info).2.data).1]
          args := { (to_dedup_range p info).2 with
            data := (ioctl k (to_dedup_range p info).2.srcFd p.FIDEDUPERANGE
              (to_dedup_range p info).2.data).2.data } } := by
  simp only [IoctlDedupeRangeSync, h, if_true]

/-- The system call of the synchronous entry point on an accepted request. -/
theorem IoctlDedupeRangeSync_ioctls (p : Platform) (k : Kernel) (info : List JSValue)
    (h : (to_dedup_range p info).2.success = true) :
    (IoctlDedupeRangeSync p k info).ioctls =
      [{ fd := wrapInt32 (to_dedup_range p info).2.srcFd
         request := p.FIDEDUPERANGE
         arg := (to_dedup_range p info).2.data }] := by
  rw [IoctlDedupeRangeSync_accept p k info h]
  split <;> rfl

/-! ## The claims -/

/-- C1. When one of the five parameters is missing (too few arguments, `null` or
`undefined`) or is not a number, `to_dedup_range` schedules a `TypeError` (and
nothing but `TypeError`s), returns `success = false`, and neither entry point
goes on: the synchronous one issues no `ioctl`, the asynchronous one queues no
worker, and both add no exception of their own. -/
theorem to_dedup_range_rejects_missing (p : Platform) (k : Kernel) (info : List JSValue)
    (i : Nat) (hi : i < 5) (h : missingOrNotNumber info i = true) :
    (to_dedup_range p info).2.success = false ∧
      (to_dedup_range p info).1 ≠ [] ∧
      (∀ e ∈ (to_dedup_range p info).1, e.isTypeError = true) ∧
      (IoctlDedupeRangeSync p k info).ioctls = [] ∧
      (IoctlDedupeRangeSync p k info).thrown = (to_dedup_range p info).1 ∧
      (IoctlDedupeRangeAsync p info).queued = [] ∧
      (IoctlDedupeRangeAsync p info).thrown = (to_dedup_range p info).1 := by
  have hs : (to_dedup_range p info).2.success = false := by
    cases hsucc : (to_dedup_range p info).2.success with
    | false => rfl
    | true =>
      exfalso
      obtain ⟨hlen, a, b, c, d, e, h0, h1, h2, h3, h4, -⟩ := to_dedup_range_success p info hsucc
      have hnum : (argAt info i).IsNumber = true := by
        have : i = 0 ∨ i = 1 ∨ i = 2 ∨ i = 3 ∨ i = 4 := by omega
        rcases this with rfl | rfl | rfl | rfl | rfl
        · rw [h0]; rfl
        · rw [h1]; rfl
        · rw [h2]; rfl
        · rw [h3]; rfl
        · rw [h4]; rfl
      have hnn : (argAt info i).IsNullOrUndefined = false := by
        obtain ⟨x, hx⟩ := (IsNumber_iff _).1 hnum
        rw [hx]; rfl
      have hl : ¬ info.length ≤ i := by omega
      simp [missingOrNotNumber, hnum, hnn, hl] at h
  have ht := to_dedup_range_thrown p info
  refine ⟨hs, ht.2 hs, ht.1, ?_, ?_, ?_, ?_⟩ <;>
    simp [IoctlDedupeRangeSync, IoctlDedupeRangeAsync, hs]

/-- Witness for C1: the string `"0"` as source offset. -/
theorem to_dedup_range_rejects_missing_witness :
    (1 < 5 ∧ missingOrNotNumber [jsInt 3, JSValue.string "0", jsInt 4096, jsInt 4, jsInt 0] 1
        = true) ∧
      (to_dedup_range refPlatform
          [jsInt 3, JSValue.string "0", jsInt 4096, jsInt 4, jsInt 0]).2.success = false ∧
      (IoctlDedupeRangeSync refPlatform mockKernel
          [jsInt 3, JSValue.string "0", jsInt 4096, jsInt 4, jsInt 0]).ioctls = [] :=
  ⟨⟨by decide, by decide⟩,
    (to_dedup_range_rejects_missing refPlatform mockKernel
      [jsInt 3, JSValue.string "0", jsInt 4096, jsInt 4, jsInt 0] 1 (by decide) (by decide)).1,
    (to_dedup_range_rejects_missing refPlatform mockKernel
      [jsInt 3, JSValue.string "0", jsInt 4096, jsInt 4, jsInt 0] 1 (by decide)
      (by decide)).2.2.2.1⟩

/-- C2. When the source offset, the source length or the destination offset
is a negative number, `to_dedup_range` schedules a `TypeError` (and nothing but
`TypeError`s) and returns `success = false`, whatever the other arguments
are. -/
theorem to_dedup_range_rejects_negative (p : Platform) (info : List JSValue) (i : Nat)
    (x : JSNumber) (hi : i = SRC_OFF ∨ i = SRC_LEN ∨ i = DST_OFF)
    (hx : argAt info i = JSValue.number x) (hneg : x.isNegative = true) :
    (to_dedup_range p info).2.success = false ∧
      (to_dedup_range p info).1 ≠ [] ∧
      (∀ e ∈ (to_dedup_range p info).1, e.isTypeError = true) := by
  have hs : (to_dedup_range p info).2.success = false := by
    cases hsucc : (to_dedup_range p info).2.success with
    | false => rfl
    | true =>
      exfalso
      obtain ⟨-, a, b, c, d, e, -, h1, h2, -, h4, -, hb, hc, -, -, he, -⟩ :=
        to_dedup_range_success p info hsucc
      rw [JSNumber.lt_zero_eq_isNegative] at hb hc he
      rcases hi with rfl | rfl | rfl
      · rw [SRC_OFF, h1] at hx
        rw [JSValue.number.inj hx, hneg] at hb
        exact Bool.noConfusion hb
      · rw [SRC_LEN, h2] at hx
        rw [JSValue.number.inj hx, hneg] at hc
        exact Bool.noConfusion hc
      · rw [DST_OFF, h4] at hx
        rw [JSValue.number.inj hx, hneg] at he
        exact Bool.noConfusion he
  have ht := to_dedup_range_thrown p info
  exact ⟨hs, ht.2 hs, ht.1⟩

/-- Witness for C2: a source length of `-1` after a valid descriptor and
offset. -/
theorem to_dedup_range_rejects_negative_witness :
    ((SRC_LEN = SRC_OFF ∨ SRC_LEN = SRC_LEN ∨ SRC_LEN = DST_OFF) ∧
        argAt [jsInt 3, jsInt 0, jsInt (-1), jsInt 4, jsInt 0] SRC_LEN
          = JSValue.number (JSNumber.ofInt32 (-1)) ∧
        (JSNumber.ofInt32 (-1)).isNegative = true) ∧
      (to_dedup_range refPlatform [jsInt 3, jsInt 0, jsInt (-1), jsInt 4, jsInt 0]).2.success
        = false :=
  ⟨⟨Or.inr (Or.inl rfl), rfl, by decide⟩,
    (to_dedup_range_rejects_negative refPlatform
      [jsInt 3, jsInt 0, jsInt (-1), jsInt 4, jsInt 0] SRC_LEN (JSNumber.ofInt32 (-1))
      (Or.inr (Or.inl rfl)) rfl (by decide)).1⟩

/-- C3: the code at the failing input. For the source offset `1.5` (the other
parameters valid) `to_dedup_range` schedules the `src_off` integrality error
but returns `success = true` with the offset truncated to 1, in the request and
in the buffer; the same `1.5` as source length, destination offset or
descriptor is rejected with `success = false`. -/
theorem to_dedup_range_src_off_fraction :
    to_dedup_range refPlatform [jsInt 3, jsOneAndHalf, jsInt 4096, jsInt 4, jsInt 0] =
        ([JSError.typeError "Argument src_off must be an integer."],
          { success := true, srcFd := 3, srcOffset := 1, srcLength := 4096, destFd := 4,
            destOffset := 0, data := builtData refPlatform 1 4096 4 0 }) ∧
      (to_dedup_range refPlatform
        [jsInt 3, jsOneAndHalf, jsInt 4096, jsInt 4, jsInt 0]).2.dedupe_range refPlatform =
        { src_offset := 1, src_length := 4096, dest_count := 1, reserved1 := 0,
          reserved2 := 0 } ∧
      (to_dedup_range refPlatform [jsInt 3, jsInt 0, jsOneAndHalf, jsInt 4, jsInt 0]).2.success
        = false ∧
      (to_dedup_range refPlatform [jsInt 3, jsInt 0, jsInt 4096, jsInt 4, jsOneAndHalf]).2.success
        = false ∧
      (to_dedup_range refPlatform [jsOneAndHalf, jsInt 0, jsInt 4096, jsInt 4, jsInt 0]).2.success
        = false ∧
      (to_dedup_range refPlatform [jsInt 3, jsInt 0, jsInt 4096, jsOneAndHalf, jsInt 0]).2.success
        = false := by
  decide

/-- The integrality checks that do return: a number with a fractional part as
source descriptor, source length, destination descriptor or destination offset
makes `to_dedup_range` schedule a `TypeError` and return `success = false`,
whatever the other arguments are. -/
theorem to_dedup_range_rejects_fraction_elsewhere (p : Platform) (info : List JSValue)
    (i : Nat) (x : JSNumber) (hi : i = SRC_FD ∨ i = SRC_LEN ∨ i = DST_FD ∨ i = DST_OFF)
    (hx : argAt info i = JSValue.number x) (hfrac : x.hasFraction = true) :
    (to_dedup_range p info).2.success = false ∧
      (to_dedup_range p info).1 ≠ [] ∧
      (∀ e ∈ (to_dedup_range p info).1, e.isTypeError = true) := by
  have hn := JSNumber.floor_ne_of_hasFraction x hfrac
  have hs : (to_dedup_range p info).2.success = false := by
    cases hsucc : (to_dedup_range p info).2.success with
    | false => rfl
    | true =>
      exfalso
      obtain ⟨-, a, b, c, d, e, h0, -, h2, h3, h4, ha, -, -, hc, hd, -, he⟩ :=
        to_dedup_range_success p info hsucc
      rcases hi with rfl | rfl | rfl | rfl
      · rw [SRC_FD, h0] at hx
        rw [JSValue.number.inj hx, hn] at ha
        exact Bool.noConfusion ha
      · rw [SRC_LEN, h2] at hx
        rw [JSValue.number.inj hx, hn] at hc
        exact Bool.noConfusion hc
      · rw [DST_FD, h3] at hx
        rw [JSValue.number.inj hx, hn] at hd
        exact Bool.noConfusion hd
      · rw [DST_OFF, h4] at hx
        rw [JSValue.number.inj hx, hn] at he
        exact Bool.noConfusion he
  have ht := to_dedup_range_thrown p info
  exact ⟨hs, ht.2 hs, ht.1⟩

/-- The rejection of a fractional source length, at `1.5`. -/
theorem to_dedup_range_rejects_fraction_elsewhere_witness :
    ((SRC_LEN = SRC_FD ∨ SRC_LEN = SRC_LEN ∨ SRC_LEN = DST_FD ∨ SRC_LEN = DST_OFF) ∧
        argAt [jsInt 3, jsInt 0, jsOneAndHalf, jsInt 4, jsInt 0] SRC_LEN = jsOneAndHalf ∧
        jsOneAndHalf.toDouble.hasFraction = true) ∧
      (to_dedup_range refPlatform
        [jsInt 3, jsInt 0, jsOneAndHalf, jsInt 4, jsInt 0]).2.success = false :=
  ⟨⟨Or.inr (Or.inl rfl), rfl, by decide⟩,
    (to_dedup_range_rejects_fraction_elsewhere refPlatform
      [jsInt 3, jsInt 0, jsOneAndHalf, jsInt 4, jsInt 0] SRC_LEN jsOneAndHalf.toDouble
      (Or.inr (Or.inl rfl)) rfl (by decide)).1⟩

/-- C4: the code at the failing input. For the source offset `1.5` the
validator has scheduled a `TypeError`, and yet the synchronous entry point
issues the `ioctl` (on descriptor 3, with source offset 1 in the buffer) and
sets a return value, and the asynchronous entry point queues a worker whose run
issues the same `ioctl` and calls the completion handler. -/
theorem entry_points_proceed_after_type_error :
    (IoctlDedupeRangeSync refPlatform mockKernel
        [jsInt 3, jsOneAndHalf, jsInt 4096, jsInt 4, jsInt 0]).thrown =
        [JSError.typeError "Argument src_off must be an integer."] ∧
      (IoctlDedupeRangeSync refPlatform mockKernel
        [jsInt 3, jsOneAndHalf, jsInt 4096, jsInt 4, jsInt 0]).ioctls =
        [{ fd := 3, request := 0xC0189436, arg := builtData refPlatform 1 4096 4 0 }] ∧
      (IoctlDedupeRangeSync refPlatform mockKernel
        [jsInt 3, jsOneAndHalf, jsInt 4096, jsInt 4, jsInt 0]).returnValue = some (jsInt 0) ∧
      (IoctlDedupeRangeAsync refPlatform
        [jsInt 3, jsOneAndHalf, jsInt 4096, jsInt 4, jsInt 0, JSValue.function 7]).thrown =
        [JSError.typeError "Argument src_off must be an integer."] ∧
      (IoctlDedupeRangeAsync refPlatform
        [jsInt 3, jsOneAndHalf, jsInt 4096, jsInt 4, jsInt 0, JSValue.function 7]).queued.map
          (fun w => w.run refPlatform mockKernel) =
        [({ fd := 3, request := 0xC0189436, arg := builtData refPlatform 1 4096 4 0 },
          [{ callback := JSValue.function 7,
             args := [JSValue.null, jsInt 0, jsInt 0, jsInt 4096] }])] := by
  decide

/-- Apart from the `src_off` integrality error, a reported validation error
stops both entry points: when `to_dedup_range` has scheduled anything other
than exactly that one error, it has returned `success = false`, the synchronous
entry point issues no `ioctl` and the asynchronous one queues no worker. -/
theorem type_error_stops_entry_points (p : Platform) (k : Kernel) (info : List JSValue)
    (h : (to_dedup_range p info).1 ≠ [])
    (hne : (to_dedup_range p info).1 ≠
      [JSError.typeError "Argument src_off must be an integer."]) :
    (to_dedup_range p info).2.success = false ∧
      (IoctlDedupeRangeSync p k info).ioctls = [] ∧
      (IoctlDedupeRangeSync p k info).returnValue = none ∧
      (IoctlDedupeRangeSync p k info).thrown = (to_dedup_range p info).1 ∧
      (IoctlDedupeRangeAsync p info).queued = [] ∧
      (IoctlDedupeRangeAsync p info).thrown = (to_dedup_range p info).1 := by
  have hs : (to_dedup_range p info).2.success = false := by
    cases hsucc : (to_dedup_range p info).2.success with
    | false => rfl
    | true =>
      exfalso
      obtain ⟨hlen, a, b, c, d, e, h0, h1, h2, h3, h4, ha, hb, hc, hc', hd, he, he'⟩ :=
        to_dedup_range_success p info hsucc
      have hres := to_dedup_range_accept p info a b c d e hlen h0 h1 h2 h3 h4 ha hb hc hc' hd
        he he'
      rw [hres] at h hne
      dsimp only at h hne
      split at h
      · rename_i hf
        rw [if_pos hf] at hne
        exact hne rfl
      · exact h rfl
  refine ⟨hs, ?_, ?_, ?_, ?_, ?_⟩ <;>
    simp [IoctlDedupeRangeSync, IoctlDedupeRangeAsync, hs]

/-- The stop at work: a source length of `1.5` after a source offset of
`1.5` schedules two errors and ends in `success = false`. -/
theorem type_error_stops_entry_points_witness :
    (to_dedup_range refPlatform [jsInt 3, jsOneAndHalf, jsOneAndHalf, jsInt 4, jsInt 0]).1 =
        [JSError.typeError "Argument src_off must be an integer.",
          JSError.typeError "Argument src_len must be an integer."] ∧
      (IoctlDedupeRangeSync refPlatform mockKernel
        [jsInt 3, jsOneAndHalf, jsOneAndHalf, jsInt 4, jsInt 0]).ioctls = [] :=
  ⟨by decide,
    (type_error_stops_entry_points refPlatform mockKernel
      [jsInt 3, jsOneAndHalf, jsOneAndHalf, jsInt 4, jsInt 0] (by decide) (by decide)).2.1⟩

/-- C5. Round trip of the buffer builder. For valid parameters denoting the
integers `fdS`, `offS`, `len`, `fdD`, `offD`, the descriptors within the signed
64-bit range and the offsets and the length below `2 ^ 64`, `to_dedup_range`
schedules no exception and succeeds, its request fields are those integers, and
the structures read back from the built buffer hold the same source offset and
length, destination count 1, zero reserved fields, and the same destination
descriptor and offset (the output fields still zero). -/
theorem to_dedup_range_round_trip (p : Platform) (info : List JSValue) (fdS fdD : Int)
    (offS len offD : Nat) (hv : validParams info fdS offS len fdD offD = true)
    (hfdS : -2 ^ 63 ≤ fdS ∧ fdS < 2 ^ 63) (hfdD : -2 ^ 63 ≤ fdD ∧ fdD < 2 ^ 63)
    (hoffS : offS < 2 ^ 64) (hlen : len < 2 ^ 64) (hoffD : offD < 2 ^ 64) :
    (to_dedup_range p info).1 = [] ∧
      (to_dedup_range p info).2.success = true ∧
      (to_dedup_range p info).2.srcFd = fdS ∧
      (to_dedup_range p info).2.srcOffset = offS ∧
      (to_dedup_range p info).2.srcLength = len ∧
      (to_dedup_range p info).2.destFd = fdD ∧
      (to_dedup_range p info).2.destOffset = offD ∧
      (to_dedup_range p info).2.dedupe_range p =
        { src_offset := offS, src_length := len, dest_count := 1, reserved1 := 0,
          reserved2 := 0 } ∧
      (to_dedup_range p info).2.dedupe_range_info p =
        { dest_fd := fdD, dest_offset := offD, bytes_deduped := 0, status := 0,
          reserved := 0 } := by
  obtain ⟨a, b, c, d, e, hres, ha, hb, hc, hd, he⟩ :=
    to_dedup_range_valid p info fdS offS len fdD offD hv
  have ha := ha hfdS
  have hb := hb (by exact_mod_cast hoffS)
  have hc := hc (by exact_mod_cast hlen)
  have hd := hd hfdD
  have he := he (by exact_mod_cast hoffD)
  simp only [Int.toNat_ofNat] at hb hc he
  rw [ha, hb, hc, hd, he] at hres
  rw [hres]
  refine ⟨rfl, rfl, rfl, rfl, rfl, rfl, rfl, ?_, ?_⟩
  · exact builtData_dedupe_range p _ offS len fdD offD rfl hoffS hlen
  · exact builtData_dedupe_range_info p _ offS len fdD offD rfl hfdD hoffD

/-- Witness for C5: descriptors 3 and 4, offsets 0, length 4096. -/
theorem to_dedup_range_round_trip_witness :
    (validParams [jsInt 3, jsInt 0, jsInt 4096, jsInt 4, jsInt 0] 3 0 4096 4 0 = true) ∧
      (to_dedup_range refPlatform [jsInt 3, jsInt 0, jsInt 4096, jsInt 4, jsInt 0]).2.dedupe_range
          refPlatform =
        { src_offset := 0, src_length := 4096, dest_count := 1, reserved1 := 0,
          reserved2 := 0 } :=
  ⟨by decide,
    (to_dedup_range_round_trip refPlatform [jsInt 3, jsInt 0, jsInt 4096, jsInt 4, jsInt 0]
      3 4 0 4096 0 (by decide) (by decide) (by decide) (by decide) (by decide)
      (by decide)).2.2.2.2.2.2.2.1⟩

/-- C6. For a validated request (`success = true`) the synchronous entry point
issues exactly one `ioctl`, on the buffer the validator built. When the return
code is non-negative it sets that code as its return value and adds no
exception; when the return code is negative it sets no return value and
schedules an `ErrnoException` carrying the `errno` the call left behind. In
both cases its buffer holds what the kernel wrote, so the accessors `status()`
and `bytes_deduped()` read the kernel's answer. -/
theorem IoctlDedupeRangeSync_result (p : Platform) (k : Kernel) (info : List JSValue)
    (h : (to_dedup_range p info).2.success = true) :
    (IoctlDedupeRangeSync p k info).ioctls =
        [(ioctl k (to_dedup_range p info).2.srcFd p.FIDEDUPERANGE
          (to_dedup_range p info).2.data).1] ∧
      (IoctlDedupeRangeSync p k info).args.data =
        (ioctl k (to_dedup_range p info).2.srcFd p.FIDEDUPERANGE
          (to_dedup_range p info).2.data).2.data ∧
      (0 ≤ (ioctl k (to_dedup_range p info).2.srcFd p.FIDEDUPERANGE
            (to_dedup_range p info).2.data).2.ret →
        (IoctlDedupeRangeSync p k info).returnValue =
            some (JSValue.number (JSNumber.ofInt32
              (ioctl k (to_dedup_range p info).2.srcFd p.FIDEDUPERANGE
                (to_dedup_range p info).2.data).2.ret)) ∧
          (JSNumber.ofInt32 (ioctl k (to_dedup_range p info).2.srcFd p.FIDEDUPERANGE
              (to_dedup_range p info).2.data).2.ret).toInt? =
            some (ioctl k (to_dedup_range p info).2.srcFd p.FIDEDUPERANGE
              (to_dedup_range p info).2.data).2.ret ∧
          (IoctlDedupeRangeSync p k info).thrown = (to_dedup_range p info).1) ∧
      ((ioctl k (to_dedup_range p info).2.srcFd p.FIDEDUPERANGE
            (to_dedup_range p info).2.data).2.ret < 0 →
        (IoctlDedupeRangeSync p k info).returnValue = none ∧
          (IoctlDedupeRangeSync p k info).thrown =
            (to_dedup_range p info).1 ++
              [JSError.errnoException
                (ioctl k (to_dedup_range p info).2.srcFd p.FIDEDUPERANGE
                  (to_dedup_range p info).2.data).2.errno "ioctl"]) := by
  have hw : ∀ v, wrapInt32 (wrapInt32 v) = wrapInt32 v := fun v =>
    wrapInt32_of_range _ (wrapInt32_range v)
  rw [IoctlDedupeRangeSync_accept p k info h]
  refine ⟨?_, ?_, ?_, ?_⟩
  · split <;> rfl
  · split <;> rfl
  · intro hr
    have hr' : ¬ (ioctl k (to_dedup_range p info).2.srcFd p.FIDEDUPERANGE
        (to_dedup_range p info).2.data).2.ret < 0 := by omega
    rw [if_neg hr']
    refine ⟨rfl, ?_, rfl⟩
    rw [JSNumber.toInt?_ofInt32]
    simp only [ioctl, hw]
  · intro hr
    rw [if_pos hr]
    exact ⟨rfl, rfl⟩

/-- Witness for C6: the inputs (3, 0, 4096, 4, 0) against a kernel that reports
success with `status = 0` and `bytes_deduped = 4096`: the call returns 0 and
the accessors read 0 and 4096. Against a kernel that fails with `EINVAL` the
call sets no return value and schedules the `ErrnoException` for 22. -/
theorem IoctlDedupeRangeSync_result_witness :
    (to_dedup_range refPlatform [jsInt 3, jsInt 0, jsInt 4096, jsInt 4, jsInt 0]).2.success
        = true ∧
      (IoctlDedupeRangeSync refPlatform mockKernel
        [jsInt 3, jsInt 0, jsInt 4096, jsInt 4, jsInt 0]).returnValue = some (jsInt 0) ∧
      (IoctlDedupeRangeSync refPlatform mockKernel
        [jsInt 3, jsInt 0, jsInt 4096, jsInt 4, jsInt 0]).thrown = [] ∧
      (IoctlDedupeRangeSync refPlatform mockKernel
        [jsInt 3, jsInt 0, jsInt 4096, jsInt 4, jsInt 0]).args.status refPlatform = 0 ∧
      (IoctlDedupeRangeSync refPlatform mockKernel
        [jsInt 3, jsInt 0, jsInt 4096, jsInt 4, jsInt 0]).args.bytes_deduped refPlatform
        = 4096 ∧
      (IoctlDedupeRangeSync refPlatform failingKernel
        [jsInt 3, jsInt 0, jsInt 4096, jsInt 4, jsInt 0]).returnValue = none ∧
      (IoctlDedupeRangeSync refPlatform failingKernel
        [jsInt 3, jsInt 0, jsInt 4096, jsInt 4, jsInt 0]).thrown =
        [JSError.errnoException 22 "ioctl"] :=
  ⟨by decide,
    ((IoctlDedupeRangeSync_result refPlatform mockKernel
      [jsInt 3, jsInt 0, jsInt 4096, jsInt 4, jsInt 0] (by decide)).2.2.1 (by decide)).1,
    ((IoctlDedupeRangeSync_result refPlatform mockKernel
      [jsInt 3, jsInt 0, jsInt 4096, jsInt 4, jsInt 0] (by decide)).2.2.1 (by decide)).2.2,
    by decide, by decide,
    ((IoctlDedupeRangeSync_result refPlatform failingKernel
      [jsInt 3, jsInt 0, jsInt 4096, jsInt 4, jsInt 0] (by decide)).2.2.2 (by decide)).1,
    ((IoctlDedupeRangeSync_result refPlatform failingKernel
      [jsInt 3, jsInt 0, jsInt 4096, jsInt 4, jsInt 0] (by decide)).2.2.2 (by decide)).2⟩

/-- C7. With five valid parameters, the asynchronous entry point schedules the
`TypeError` "Callback function is required." and queues no worker when the
sixth argument is absent, `null`, `undefined` or not a function; when it is a
function, it schedules nothing and queues exactly one worker, which holds that
function and the validated request. -/
theorem IoctlDedupeRangeAsync_callback (p : Platform) (info : List JSValue)
    (fdS offS len fdD offD : Int) (hv : validParams info fdS offS len fdD offD = true) :
    ((info.length < 6 ∨ (argAt info 5).IsNullOrUndefined = true ∨
          (argAt info 5).IsFunction = false) →
        (IoctlDedupeRangeAsync p info).thrown =
            [JSError.typeError "Callback function is required."] ∧
          (IoctlDedupeRangeAsync p info).queued = []) ∧
      ((argAt info 5).IsFunction = true →
        (IoctlDedupeRangeAsync p info).thrown = [] ∧
          (IoctlDedupeRangeAsync p info).queued =
            [{ callback := argAt info 5, _range := (to_dedup_range p info).2 }]) := by
  obtain ⟨a, b, c, d, e, hres, -⟩ := to_dedup_range_valid p info fdS offS len fdD offD hv
  have h1 : (to_dedup_range p info).1 = [] := by rw [hres]
  have h2 : (to_dedup_range p info).2.success = true := by rw [hres]
  constructor
  · intro hc
    have hcond : (decide (info.length < 6) || (argAt info 5).IsNullOrUndefined ||
        !(argAt info 5).IsFunction) = true := by
      rcases hc with hc | hc | hc <;> simp [hc]
    simp only [IoctlDedupeRangeAsync, h2, if_true, hcond, h1, List.nil_append]
    exact ⟨trivial, trivial⟩
  · intro hf
    have hlen : ¬ info.length < 6 := by
      intro hl
      have : argAt info 5 = JSValue.undefined := by
        unfold argAt
        rw [List.getD_eq_default]
        omega
      rw [this] at hf
      exact Bool.noConfusion hf
    have hnn : (argAt info 5).IsNullOrUndefined = false := by
      cases hv5 : argAt info 5 <;> rw [hv5] at hf <;> first | rfl | exact Bool.noConfusion hf
    have hcond : (decide (info.length < 6) || (argAt info 5).IsNullOrUndefined ||
        !(argAt info 5).IsFunction) = false := by
      simp [hlen, hnn, hf]
    simp only [IoctlDedupeRangeAsync, h2, if_true, hcond, h1, Bool.false_eq_true, if_false,
      and_self]

/-- Witness for C7: the inputs (3, 0, 4096, 4, 0) without a sixth argument. -/
theorem IoctlDedupeRangeAsync_callback_witness :
    validParams [jsInt 3, jsInt 0, jsInt 4096, jsInt 4, jsInt 0] 3 0 4096 4 0 = true ∧
      (IoctlDedupeRangeAsync refPlatform
        [jsInt 3, jsInt 0, jsInt 4096, jsInt 4, jsInt 0]).thrown =
        [JSError.typeError "Callback function is required."] ∧
      (IoctlDedupeRangeAsync refPlatform
        [jsInt 3, jsInt 0, jsInt 4096, jsInt 4, jsInt 0]).queued = [] :=
  ⟨by decide,
    (IoctlDedupeRangeAsync_callback refPlatform [jsInt 3, jsInt 0, jsInt 4096, jsInt 4, jsInt 0]
      3 0 4096 4 0 (by decide)).1 (Or.inl (by decide))⟩

/-- C8 as amended. A queued worker with completion handler `cb` and request
`range` makes exactly one call of `cb`. When the `ioctl` return code is
non-negative the call is `cb(null, code, status, bytes)`: `code` is the return
code and `status` the per-range status of the post-call buffer, both exactly,
and `bytes` is the post-call `bytes_deduped` converted to a double, which is the
count itself whenever the count is at most `2 ^ 53`. When the return code is
negative the call is `cb(error)` with an `ErrnoException` carrying the `errno`
captured right after the `ioctl`, the same exception the synchronous entry
point schedules for the same arguments and kernel. -/
theorem worker_delivery (p : Platform) (k : Kernel) (cb : JSValue)
    (range : to_dedup_range_result) :
    let w : IoctlAsyncDedupRangeWorker := { callback := cb, _range := range }
    let r := (ioctl k range.srcFd p.FIDEDUPERANGE range.data).2
    let post : to_dedup_range_result := { range with data := r.data }
    (w.Execute p k).2._range = post ∧
      (0 ≤ r.ret →
        (w.run p k).2 =
          [{ callback := cb
             args := [JSValue.null, JSValue.number (JSNumber.ofInt32 r.ret),
               JSValue.number (JSNumber.ofInt32 (post.status p)),
               JSValue.number (JSNumber.ofUInt64 (post.bytes_deduped p))] }]) ∧
      (r.ret < 0 →
        (w.run p k).2 =
          [{ callback := cb
             args := [JSValue.error (JSError.errnoException r.errno "ioctl")] }]) ∧
      (JSNumber.ofInt32 r.ret).toInt? = some r.ret ∧
      (JSNumber.ofInt32 (post.status p)).toInt? = some (post.status p) ∧
      (post.bytes_deduped p ≤ 2 ^ 53 →
        (JSNumber.ofUInt64 (post.bytes_deduped p)).toInt? = some (post.bytes_deduped p : Int)) ∧
      (∀ info, (to_dedup_range p info).2 = range → range.success = true → r.ret < 0 →
        (IoctlDedupeRangeSync p k info).thrown =
          (to_dedup_range p info).1 ++ [JSError.errnoException r.errno "ioctl"]) := by
  intro w r post
  have hw : ∀ v, wrapInt32 (wrapInt32 v) = wrapInt32 v := fun v =>
    wrapInt32_of_range _ (wrapInt32_range v)
  have hE := Execute_eq p k cb range
  refine ⟨?_, ?_, ?_, ?_, ?_, ?_, ?_⟩
  · show (IoctlAsyncDedupRangeWorker.Execute p k { callback := cb, _range := range }).2._range = _
    rw [hE]
  · intro hr
    have hr' : ¬ (ioctl k range.srcFd p.FIDEDUPERANGE range.data).2.ret < 0 := by
      show ¬ r.ret < 0
      omega
    show ((IoctlAsyncDedupRangeWorker.Execute p k { callback := cb, _range := range }).1,
      IoctlAsyncDedupRangeWorker.WorkComplete p
        (IoctlAsyncDedupRangeWorker.Execute p k { callback := cb, _range := range }).2).2 = _
    rw [hE]
    simp only [if_neg hr', IoctlAsyncDedupRangeWorker.WorkComplete, Option.isNone_none, if_true,
      IoctlAsyncDedupRangeWorker.HandleOKCallback]
  · intro hr
    have hr' : (ioctl k range.srcFd p.FIDEDUPERANGE range.data).2.ret < 0 := hr
    show ((IoctlAsyncDedupRangeWorker.Execute p k { callback := cb, _range := range }).1,
      IoctlAsyncDedupRangeWorker.WorkComplete p
        (IoctlAsyncDedupRangeWorker.Execute p k { callback := cb, _range := range }).2).2 = _
    rw [hE]
    simp only [if_pos hr', IoctlAsyncDedupRangeWorker.WorkComplete, Option.isNone_some,
      Bool.false_eq_true, if_false, IoctlAsyncDedupRangeWorker.HandleErrorCallback]
  · rw [JSNumber.toInt?_ofInt32]
    show some (wrapInt32 (wrapInt32 _)) = some (wrapInt32 _)
    rw [hw]
  · rw [JSNumber.toInt?_ofInt32]
    show some (wrapInt32 (wrapInt32 _)) = some (wrapInt32 _)
    rw [hw]
  · intro hb
    exact JSNumber.toInt?_ofUInt64 _ hb
  · intro info hinfo hsucc hr
    have h : (to_dedup_range p info).2.success = true := by rw [hinfo]; exact hsucc
    have hr' : (ioctl k (to_dedup_range p info).2.srcFd p.FIDEDUPERANGE
        (to_dedup_range p info).2.data).2.ret < 0 := by rw [hinfo]; exact hr
    rw [IoctlDedupeRangeSync_accept p k info h, if_pos hr', hinfo]

/-- Witness for the amended C8: against a kernel that fails with `EINVAL`, the
completion handler receives the `ErrnoException` for 22 that the synchronous
entry point schedules; against one that succeeds it receives
`(null, 0, 0, 4096)`. -/
theorem worker_delivery_witness :
    (IoctlAsyncDedupRangeWorker.run refPlatform failingKernel
        { callback := JSValue.function 7
          _range := (to_dedup_range refPlatform
            [jsInt 3, jsInt 0, jsInt 4096, jsInt 4, jsInt 0]).2 }).2 =
        [{ callback := JSValue.function 7
           args := [JSValue.error (JSError.errnoException 22 "ioctl")] }] ∧
      (IoctlDedupeRangeSync refPlatform failingKernel
        [jsInt 3, jsInt 0, jsInt 4096, jsInt 4, jsInt 0]).thrown =
        [JSError.errnoException 22 "ioctl"] ∧
      (IoctlAsyncDedupRangeWorker.run refPlatform mockKernel
        { callback := JSValue.function 7
          _range := (to_dedup_range refPlatform
            [jsInt 3, jsInt 0, jsInt 4096, jsInt 4, jsInt 0]).2 }).2 =
        [{ callback := JSValue.function 7
           args := [JSValue.null, jsInt 0, jsInt 0, jsInt 4096] }] :=
  ⟨(worker_delivery refPlatform failingKernel (JSValue.function 7)
      (to_dedup_range refPlatform [jsInt 3, jsInt 0, jsInt 4096, jsInt 4, jsInt 0]).2).2.2.1
      (by decide),
    (worker_delivery refPlatform failingKernel (JSValue.function 7)
      (to_dedup_range refPlatform [jsInt 3, jsInt 0, jsInt 4096, jsInt 4, jsInt 0]).2).2.2.2.2.2.2
      [jsInt 3, jsInt 0, jsInt 4096, jsInt 4, jsInt 0] rfl (by decide) (by decide),
    (worker_delivery refPlatform mockKernel (JSValue.function 7)
      (to_dedup_range refPlatform [jsInt 3, jsInt 0, jsInt 4096, jsInt 4, jsInt 0]).2).2.1
      (by decide)⟩

/-- Counterexample to C8 as stated: the kernel reports
`bytes_deduped = 2 ^ 53 + 1` and the completion handler is called with
`2 ^ 53`. -/
theorem worker_delivery_rounds_bytes :
    (IoctlDedupeRangeAsync refPlatform
        [jsInt 3, jsInt 0, jsInt 4096, jsInt 4, jsInt 0, JSValue.function 7]).queued.map
          (fun w => (w.Execute refPlatform hugeKernel).2._range.bytes_deduped refPlatform) =
        [9007199254740993] ∧
      (IoctlDedupeRangeAsync refPlatform
        [jsInt 3, jsInt 0, jsInt 4096, jsInt 4, jsInt 0, JSValue.function 7]).queued.map
          (fun w => (w.run refPlatform hugeKernel).2) =
        [[{ callback := JSValue.function 7
            args := [JSValue.null, jsInt 0, jsInt 0, jsTwoPow53] }]] ∧
      jsTwoPow53.toDouble.toInt? = some 9007199254740992 := by
  decide

/-- C9 as amended. For an accepted argument list with a function as sixth
argument, the synchronous entry point and the queued worker issue the same
system call: request code `FIDEDUPERANGE`, the buffer built by
`to_dedup_range` (the worker holds a copy of the whole validated request), and
as descriptor the validated `srcFd` converted to a C `int`, which is `srcFd`
itself whenever `srcFd` lies in the `int` range. -/
theorem same_ioctl_in_both_modes (p : Platform) (k : Kernel) (info : List JSValue)
    (h : (to_dedup_range p info).2.success = true) (hf : (argAt info 5).IsFunction = true) :
    (IoctlDedupeRangeSync p k info).ioctls =
        [{ fd := wrapInt32 (to_dedup_range p info).2.srcFd
           request := p.FIDEDUPERANGE
           arg := (to_dedup_range p info).2.data }] ∧
      (IoctlDedupeRangeAsync p info).queued =
        [{ callback := argAt info 5, _range := (to_dedup_range p info).2 }] ∧
      (∀ w ∈ (IoctlDedupeRangeAsync p info).queued,
        w._range = (to_dedup_range p info).2 ∧
          (w.Execute p k).1 =
            { fd := wrapInt32 (to_dedup_range p info).2.srcFd
              request := p.FIDEDUPERANGE
              arg := (to_dedup_range p info).2.data } ∧
          [(w.Execute p k).1] = (IoctlDedupeRangeSync p k info).ioctls) ∧
      (-2 ^ 31 ≤ (to_dedup_range p info).2.srcFd ∧ (to_dedup_range p info).2.srcFd < 2 ^ 31 →
        wrapInt32 (to_dedup_range p info).2.srcFd = (to_dedup_range p info).2.srcFd) := by
  have hs := IoctlDedupeRangeSync_ioctls p k info h
  have hq := IoctlDedupeRangeAsync_queues p info h hf
  refine ⟨?_, ?_, ?_, ?_⟩
  · exact hs
  · rw [hq]
  · intro w hw
    rw [hq] at hw
    have hw' : w = { callback := argAt info 5, _range := (to_dedup_range p info).2 } := by
      simpa using hw
    subst hw'
    refine ⟨rfl, ?_, ?_⟩
    · rw [Execute_eq]; rfl
    · rw [hs, Execute_eq]; rfl
  · exact wrapInt32_of_range _

/-- Witness for the amended C9: the inputs (3, 0, 4096, 4, 0) with a
function. -/
theorem same_ioctl_in_both_modes_witness :
    ((to_dedup_range refPlatform
          [jsInt 3, jsInt 0, jsInt 4096, jsInt 4, jsInt 0, JSValue.function 7]).2.success = true ∧
        (argAt [jsInt 3, jsInt 0, jsInt 4096, jsInt 4, jsInt 0, JSValue.function 7] 5).IsFunction
          = true) ∧
      (IoctlDedupeRangeSync refPlatform mockKernel
          [jsInt 3, jsInt 0, jsInt 4096, jsInt 4, jsInt 0, JSValue.function 7]).ioctls =
        [{ fd := wrapInt32
              (to_dedup_range refPlatform
                [jsInt 3, jsInt 0, jsInt 4096, jsInt 4, jsInt 0, JSValue.function 7]).2.srcFd
           request := refPlatform.FIDEDUPERANGE
           arg := (to_dedup_range refPlatform
                [jsInt 3, jsInt 0, jsInt 4096, jsInt 4, jsInt 0, JSValue.function 7]).2.data }] :=
  ⟨⟨by decide, by decide⟩,
    (same_ioctl_in_both_modes refPlatform mockKernel
      [jsInt 3, jsInt 0, jsInt 4096, jsInt 4, jsInt 0, JSValue.function 7] (by decide)
      (by decide)).1⟩

/-- Counterexample to C9 as stated: the accepted source descriptor
`2 ^ 32 + 3` is validated as `srcFd = 4294967299`, and both modes call `ioctl`
on descriptor 3. -/
theorem ioctl_descriptor_narrowed :
    (to_dedup_range refPlatform
        [jsBigFd, jsInt 0, jsInt 4096, jsInt 4, jsInt 0, JSValue.function 7]).1 = [] ∧
      (to_dedup_range refPlatform
        [jsBigFd, jsInt 0, jsInt 4096, jsInt 4, jsInt 0, JSValue.function 7]).2.success = true ∧
      (to_dedup_range refPlatform
        [jsBigFd, jsInt 0, jsInt 4096, jsInt 4, jsInt 0, JSValue.function 7]).2.srcFd
        = 4294967299 ∧
      (IoctlDedupeRangeSync refPlatform mockKernel
        [jsBigFd, jsInt 0, jsInt 4096, jsInt 4, jsInt 0, JSValue.function 7]).ioctls.map
          IoctlCall.fd = [3] ∧
      (IoctlDedupeRangeAsync refPlatform
        [jsBigFd, jsInt 0, jsInt 4096, jsInt 4, jsInt 0, JSValue.function 7]).queued.map
          (fun w => (w.Execute refPlatform mockKernel).1.fd) = [3] := by
  decide

/-- C10. In the source as written: for a source offset that is not negative
and has a fractional part, the other four parameters valid, `to_dedup_range`
schedules exactly the error "Argument src_off must be an integer." and goes
on: it returns `success = true` with `srcOffset` and the buffer's `src_offset`
both equal to the floor of the offset, and the synchronous entry point issues
the `ioctl` on that buffer. -/
theorem to_dedup_range_src_off_falls_through (p : Platform) (k : Kernel)
    (info : List JSValue) (x : Finite) (fdS len fdD offD : Int)
    (hlen : 5 ≤ info.length)
    (h0 : (argAt info 0).isInteger fdS = true)
    (h1 : argAt info 1 = JSValue.number (JSNumber.finite x))
    (hfrac : (JSNumber.finite x).hasFraction = true)
    (hnonneg : (JSNumber.finite x).isNegative = false)
    (h2 : (argAt info 2).isInteger len = true) (hlen0 : 0 ≤ len)
    (h3 : (argAt info 3).isInteger fdD = true)
    (h4 : (argAt info 4).isInteger offD = true) (hoffD0 : 0 ≤ offD) :
    (to_dedup_range p info).1 = [JSError.typeError "Argument src_off must be an integer."] ∧
      (to_dedup_range p info).2.success = true ∧
      ((to_dedup_range p info).2.srcOffset : Int) = x.floorInt ∧
      (((to_dedup_range p info).2.dedupe_range p).src_offset : Int) = x.floorInt ∧
      (IoctlDedupeRangeSync p k info).ioctls =
        [{ fd := wrapInt32 (to_dedup_range p info).2.srcFd
           request := p.FIDEDUPERANGE
           arg := (to_dedup_range p info).2.data }] := by
  obtain ⟨a, ha, ha1, -⟩ := JSValue.isInteger_eq_true _ _ h0
  obtain ⟨c, hc, hc1, hc2⟩ := JSValue.isInteger_eq_true _ _ h2
  obtain ⟨d, hd, hd1, -⟩ := JSValue.isInteger_eq_true _ _ h3
  obtain ⟨e, he, he1, he2⟩ := JSValue.isInteger_eq_true _ _ h4
  have hxn : (JSNumber.finite x).lt (JSNumber.ofInt32 0) = false := by
    rw [JSNumber.lt_zero_eq_isNegative]; exact hnonneg
  have hres := to_dedup_range_accept p info _ _ _ _ _ hlen ha h1 hc hd he
    (JSNumber.floor_ne_of_isInt a ha1) hxn
    (JSNumber.lt_zero_of_floorInt_nonneg c (by omega))
    (JSNumber.floor_ne_of_isInt c hc1)
    (JSNumber.floor_ne_of_isInt d hd1)
    (JSNumber.lt_zero_of_floorInt_nonneg e (by omega))
    (JSNumber.floor_ne_of_isInt e he1)
  rw [JSNumber.floor_ne_of_hasFraction _ hfrac, if_pos rfl] at hres
  have hx0 : 0 ≤ x.floorInt := by
    apply Finite.floorInt_nonneg
    have : ¬ x.mant < 0 := by simpa [JSNumber.isNegative] using hnonneg
    omega
  have hx1 : x.floorInt < 2 ^ 53 := by
    apply Finite.floorInt_lt_of_not_isInt
    simpa [JSNumber.hasFraction] using hfrac
  have hcast : p.toUInt64 (JSNumber.finite x).floor = x.floorInt.toNat :=
    Platform.toUInt64_floor p x ⟨hx0, by omega⟩
  have hsucc : (to_dedup_range p info).2.success = true := by rw [hres]
  have hoff : (to_dedup_range p info).2.srcOffset = x.floorInt.toNat := by rw [hres, hcast]
  refine ⟨by rw [hres], hsucc, ?_, ?_, ?_⟩
  · rw [hoff]
    omega
  · have hload := (builtData_load p x.floorInt.toNat
      (p.toUInt64 (JSNumber.finite c).floor) (p.toInt64 (JSNumber.finite d).floor)
      (p.toUInt64 (JSNumber.finite e).floor)).1
    have hdata : (to_dedup_range p info).2.data = builtData p
        x.floorInt.toNat (p.toUInt64 (JSNumber.finite c).floor)
        (p.toInt64 (JSNumber.finite d).floor) (p.toUInt64 (JSNumber.finite e).floor) := by
      rw [hres, hcast]
    simp only [to_dedup_range_result.dedupe_range, hdata, hload, Platform.decode_encode]
    have : x.floorInt.toNat % 256 ^ 8 = x.floorInt.toNat := Nat.mod_eq_of_lt (by omega)
    rw [this]
    omega
  · exact IoctlDedupeRangeSync_ioctls p k info hsucc

/-- Witness for C10: the source offset `1.5`. -/
theorem to_dedup_range_src_off_falls_through_witness :
    (argAt [jsInt 3, jsOneAndHalf, jsInt 4096, jsInt 4, jsInt 0] 1 = jsOneAndHalf ∧
        jsOneAndHalf.toDouble.hasFraction = true ∧
        jsOneAndHalf.toDouble.isNegative = false) ∧
      (to_dedup_range refPlatform [jsInt 3, jsOneAndHalf, jsInt 4096, jsInt 4, jsInt 0]).1 =
        [JSError.typeError "Argument src_off must be an integer."] ∧
      (to_dedup_range refPlatform
        [jsInt 3, jsOneAndHalf, jsInt 4096, jsInt 4, jsInt 0]).2.success = true :=
  ⟨⟨rfl, by decide, by decide⟩,
    (to_dedup_range_src_off_falls_through refPlatform mockKernel
      [jsInt 3, jsOneAndHalf, jsInt 4096, jsInt 4, jsInt 0]
      { mant := 3, exp := -1, mant_lt := by decide, exp_ge := by decide, exp_le := by decide }
      3 4096 4 0 (by decide) (by decide) rfl (by decide) (by decide) (by decide) (by decide)
      (by decide) (by decide) (by decide)).1,
    (to_dedup_range_src_off_falls_through refPlatform mockKernel
      [jsInt 3, jsOneAndHalf, jsInt 4096, jsInt 4, jsInt 0]
      { mant := 3, exp := -1, mant_lt := by decide, exp_ge := by decide, exp_le := by decide }
      3 4096 4 0 (by decide) (by decide) rfl (by decide) (by decide) (by decide) (by decide)
      (by decide) (by decide) (by decide)).2.1⟩

end LinuxDedupe
